import Mathlib

/-!
# PWTClientService: the worker's command dispatch and request timers

A shallow embedding of `pwtClientService/ServiceWorker.cpp`,
`pwtClientService/ClientServiceCmdTimer.h` and the facade of
`pwtClientService/ClientService.{h,cpp}`.

* The worker is a record (`ServiceWorker`); every slot is a function from the
  record to the new record and the list of signals it emits, in order.
* What the worker takes from Qt and from pwtShared (variant conversions, the
  codec, the numeric values of the command enumeration) is the record `Extern`;
  the general theorems hold for every `Extern`, and `sampleExtern` serves the
  runs on concrete inputs.
* `QList::operator[]` with an index out of range is undefined; `parseCMD`
  returns `none` there.
* A text built by one call of `QString::arg` on a literal pattern is the
  concatenation of the pieces around the place markers and the arguments; where
  `arg` is chained on a text that already holds an argument (`onCommandTimeout`),
  each call is the external function `Extern.qArg`.
* Time is not modelled: the expiry of an active timer is an event of the worker's
  event loop (`timerExpired`), and the interval is a field of the timer.
-/

namespace PWTCS

/-! ## Data carried by messages -/

/-- Modelled from the spec: the command enumeration `PWTS::DCMD` of
`pwtShared/Include/DaemonCMD.h`, a header that is not among the sources. The
constructors are the enumerators the worker names; `other` stands for every
other value a `static_cast` from `int` can produce. -/
inductive DCMD where
  | DAEMON_CMD_FAIL
  | PRINT_ERROR
  | GET_DEVICE_INFO_PACKET
  | GET_DAEMON_PACKET
  | GET_DAEMON_SETTS
  | APPLY_CLIENT_SETTINGS
  | DELETE_PROFILE
  | WRITE_PROFILE
  | GET_PROFILE_LIST
  | APPLY_PROFILE
  | LOAD_PROFILE
  | EXPORT_PROFILES
  | IMPORT_PROFILES
  | APPLY_DAEMON_SETT
  | BATTERY_STATUS_CHANGED
  | SYS_WAKE_FROM_SLEEP
  | APPLY_TIMER
  | other (code : Int)
  deriving DecidableEq, Repr

/-- Bytes of a `QByteArray`. -/
abbrev QByteArray := List Nat

/-- Modelled from the spec: `PWTS::DError`, an enumeration of pwtShared that the
worker only casts from `int` and passes on; kept as its integer value. -/
abbrev DError := Int

/-- The payload of `QSet<PWTS::DError>`, passed on as decoded. -/
abbrev ErrorSet := List DError

/-- The payload of `QHash<QString, QByteArray>`, passed on as given. -/
abbrev Profiles := List (String × QByteArray)

/-- Modelled from the spec: `PWTS::PacketError` of pwtShared; the worker only
compares a packet's status with `NoError`. -/
inductive PacketError where
  | NoError
  | failure (code : Nat)
  deriving DecidableEq, Repr

/-- Modelled from the spec: `PWTS::DeviceInfoPacket`; the worker reads its
`error` field and forwards the packet whole. -/
structure DeviceInfoPacket where
  error : PacketError
  body : QByteArray
  deriving DecidableEq, Repr

/-- Modelled from the spec: `PWTS::DaemonPacket`; the worker reads its `error`
field and forwards the packet whole. -/
structure DaemonPacket where
  error : PacketError
  body : QByteArray
  deriving DecidableEq, Repr

/-- Modelled from the spec: `PWTS::ClientPacket`, an opaque payload sent to the
daemon. -/
structure ClientPacket where
  body : QByteArray
  deriving DecidableEq, Repr

/-- The values a `QVariant` of a message holds. -/
inductive QVariant where
  | invalid
  | int (n : Int)
  | bool (b : Bool)
  | string (s : String)
  | byteArray (d : QByteArray)
  | stringList (l : List String)
  | deviceInfoPacket (p : DeviceInfoPacket)
  | daemonPacket (p : DaemonPacket)
  | clientPacket (p : ClientPacket)
  deriving DecidableEq, Repr

/-- Errors of `QAbstractSocket::SocketError` that `onErrorOccurred` tells apart. -/
inductive SocketError where
  | RemoteHostClosedError
  | HostNotFoundError
  | ConnectionRefusedError
  | SocketResourceError
  | otherError (code : Nat)
  deriving DecidableEq, Repr

/-- What the worker calls but does not define: Qt's conversions between variant
types, the casts between `int` and `PWTS::DCMD`, the pwtShared codec
(`packData`, `unpackData`, the error strings) and the `QDataStream` reader. -/
structure Extern where
  /-- The cast `static_cast<PWTS::DCMD>(int)`. -/
  castDCMD : Int → DCMD
  /-- The cast `static_cast<int>(PWTS::DCMD)`. -/
  dcmdInt : DCMD → Int
  /-- The conversion `QVariant::toInt` of a variant that holds no int. -/
  convInt : QVariant → Int
  /-- The conversion `QVariant::toBool` of a variant that holds no bool. -/
  convBool : QVariant → Bool
  /-- The conversion `QVariant::toByteArray` of a variant that holds no byte array. -/
  convByteArray : QVariant → QByteArray
  /-- The conversion `QVariant::toString` of a variant that holds no string. -/
  convString : QVariant → String
  /-- The conversion `QVariant::toStringList` of a variant that holds no string list. -/
  convStringList : QVariant → List String
  /-- A registered conversion to `DeviceInfoPacket`; `none` when `canConvert` is false. -/
  convDeviceInfoPacket : QVariant → Option DeviceInfoPacket
  /-- A registered conversion to `DaemonPacket`; `none` when `canConvert` is false. -/
  convDaemonPacket : QVariant → Option DaemonPacket
  /-- The text `PWTS::getErrorStr` gives for an error code. -/
  getErrorStr : DError → String
  /-- The text `PWTS::getPacketErrorStr` gives for a packet status. -/
  getPacketErrorStr : PacketError → String
  /-- The encoder `PWTS::packData<QList<QVariant>>`; `none` when it returns false. -/
  packArgs : List QVariant → Option QByteArray
  /-- The encoder `PWTS::packData<QHash<QString, QByteArray>>`. -/
  packProfiles : Profiles → Option QByteArray
  /-- The decoder `PWTS::unpackData<QSet<PWTS::DError>>`. -/
  unpackErrors : QByteArray → Option ErrorSet
  /-- The decoder `PWTS::unpackData<QHash<QString, QByteArray>>`. -/
  unpackProfiles : QByteArray → Option Profiles
  /-- One read of a `QList<QVariant>` inside a stream transaction, from a buffer
  that is not empty: the message and how many bytes after the first it takes, or
  `none` when the transaction does not commit. -/
  readArgs : QByteArray → Option (List QVariant × Nat)
  /-- One call of `QString::arg` with one argument, given as text: the pattern
  with the argument in the place of its lowest-numbered place marker. -/
  qArg : String → String → String

namespace QVariant

/-- The call `toInt()`. -/
def toInt (E : Extern) : QVariant → Int
  | .int n => n
  | v => E.convInt v

/-- The call `toBool()`. -/
def toBool (E : Extern) : QVariant → Bool
  | .bool b => b
  | v => E.convBool v

/-- The call `toByteArray()`. -/
def toByteArray (E : Extern) : QVariant → QByteArray
  | .byteArray d => d
  | v => E.convByteArray v

/-- The call `toString()`. -/
def toQString (E : Extern) : QVariant → String
  | .string s => s
  | v => E.convString v

/-- The call `toStringList()`. -/
def toStringList (E : Extern) : QVariant → List String
  | .stringList l => l
  | v => E.convStringList v

/-- The pair `canConvert<PWTS::DeviceInfoPacket>()` (the result is `some`) and
`value<PWTS::DeviceInfoPacket>()` (its content). -/
def toDeviceInfoPacket (E : Extern) : QVariant → Option DeviceInfoPacket
  | .deviceInfoPacket p => some p
  | v => E.convDeviceInfoPacket v

/-- The pair `canConvert<PWTS::DaemonPacket>()` and `value<PWTS::DaemonPacket>()`. -/
def toDaemonPacket (E : Extern) : QVariant → Option DaemonPacket
  | .daemonPacket p => some p
  | v => E.convDaemonPacket v

/-- The tag of a message value: `static_cast<PWTS::DCMD>(v.toInt())`. -/
def toDCMD (E : Extern) (v : QVariant) : DCMD :=
  E.castDCMD (v.toInt E)

end QVariant

/-! ## The request timer (`ClientServiceCmdTimer.h`) -/

/-- The constant `reqTimeoutMs`. -/
def reqTimeoutMs : Nat := 120 * 1000

/-- A `ClientServiceCmdTimer`: the tag (`addr`, `dcmd`) and the `QTimer` state
the worker depends on. -/
structure ClientServiceCmdTimer where
  dcmd : DCMD
  addr : String
  interval : Nat
  singleShot : Bool
  active : Bool
  deriving DecidableEq, Repr

namespace ClientServiceCmdTimer

/-- The constructor: tags the timer, sets interval and single-shot; not started. -/
def new (adr : String) (cmd : DCMD) : ClientServiceCmdTimer :=
  { dcmd := cmd, addr := adr, interval := reqTimeoutMs, singleShot := true, active := false }

/-- The getter `getAddr`. -/
def getAddr (tm : ClientServiceCmdTimer) : String := tm.addr

/-- The getter `getCMD`. -/
def getCMD (tm : ClientServiceCmdTimer) : DCMD := tm.dcmd

/-- The call `QTimer::isActive`. -/
def isActive (tm : ClientServiceCmdTimer) : Bool := tm.active

/-- The call `QTimer::start()`: (re)starts the countdown of `interval`. -/
def start (tm : ClientServiceCmdTimer) : ClientServiceCmdTimer :=
  { tm with active := true }

/-- The call `QTimer::stop()`. -/
def stop (tm : ClientServiceCmdTimer) : ClientServiceCmdTimer :=
  { tm with active := false }

/-- The method `reset`: re-tags and starts. -/
def reset (tm : ClientServiceCmdTimer) (adr : String) (cmd : DCMD) : ClientServiceCmdTimer :=
  ({ tm with addr := adr, dcmd := cmd }).start

/-- The state of the timer after its interval has elapsed: a single-shot timer
is stopped, a repeating one keeps running. -/
def expire (tm : ClientServiceCmdTimer) : ClientServiceCmdTimer :=
  { tm with active := !tm.singleShot }

/-- The tag of a timer. -/
def tag (tm : ClientServiceCmdTimer) : String × DCMD := (tm.addr, tm.dcmd)

end ClientServiceCmdTimer

/-! ## The socket -/

/-- The states of `QAbstractSocket` the worker can be in. -/
inductive SocketState where
  | UnconnectedState
  | ConnectingState
  | ConnectedState
  deriving DecidableEq, Repr

/-- The `QTcpSocket` as the worker sees it: its state, whether the device is
open, the blocks handed to `write` so far, the bytes received and not yet read,
and `staysOpen`, whether the device still reports open after `close()`. -/
structure QTcpSocket where
  state : SocketState
  open_ : Bool
  written : List QByteArray
  readBuffer : QByteArray
  staysOpen : Bool
  lastError : String
  deriving DecidableEq, Repr

namespace QTcpSocket

/-- The call `isOpen()`. -/
def isOpen (k : QTcpSocket) : Bool := k.open_

/-- The call `abort()`: back to the unconnected state, buffers dropped. -/
def abort (k : QTcpSocket) : QTcpSocket :=
  { k with state := SocketState.UnconnectedState, readBuffer := [] }

/-- The call `close()`: the device is closed (unless it `staysOpen`), the
connection ended and the read buffer dropped. -/
def close (k : QTcpSocket) : QTcpSocket :=
  { k with state := SocketState.UnconnectedState, open_ := k.staysOpen, readBuffer := [] }

/-- The call `connectToHost`: opens the device and starts connecting. -/
def connectToHost (k : QTcpSocket) : QTcpSocket :=
  { k with state := SocketState.ConnectingState, open_ := true }

/-- The calls `write(data)` and `flush()`: a device that is not open takes nothing. -/
def write (k : QTcpSocket) (data : QByteArray) : QTcpSocket :=
  if k.open_ then { k with written := k.written ++ [data] } else k

end QTcpSocket

/-! ## The worker (`ServiceWorker.h`, `ServiceWorker.cpp`) -/

/-- The signals of `ServiceWorker`. -/
inductive Signal where
  | logMessageSent (msg : String)
  | serviceError
  | serviceConnected (adr : String) (port : Nat)
  | serviceDisconnected
  | commandFailed
  | deviceInfoPacketReceived (packet : DeviceInfoPacket)
  | daemonPacketReceived (packet : DaemonPacket)
  | currentSettingsApplied (errors : ErrorSet)
  | daemonSettingsApplied (success : Bool)
  | batteryStatusChanged (errors : ErrorSet) (name : String)
  | wakeFromSleepEvent (errors : ErrorSet)
  | applyTimerTick (errors : ErrorSet)
  | daemonSettingsReceived (data : QByteArray)
  | profileApplied (errors : ErrorSet) (name : String)
  | profileListReceived (list : List String)
  | profileDeleted (result : Bool)
  | profileWritten (result : Bool)
  | profilesExported (exported : Profiles)
  | profilesImported (result : Bool)
  deriving DecidableEq, Repr

/-- The private members of `ServiceWorker`; `sockStreamIn` reads from
`sock.readBuffer`. -/
structure ServiceWorker where
  sock : QTcpSocket
  reqTimerPool : List ClientServiceCmdTimer
  saddr : String
  sport : Nat
  deriving DecidableEq, Repr

/-- The result of a slot: the worker afterwards and the signals emitted, in order. -/
abbrev Outcome := ServiceWorker × List Signal

namespace ServiceWorker

/-- The worker after its constructor and `init()`: a fresh socket, an empty
pool, an empty address. The member `sport` has no initialiser; `sport0` is the
value it happens to hold, and `staysOpen` is the socket's behaviour on close. -/
def initial (sport0 : Nat) (staysOpen : Bool) : ServiceWorker :=
  { sock := { state := SocketState.UnconnectedState, open_ := false, written := [],
              readBuffer := [], staysOpen := staysOpen, lastError := "" },
    reqTimerPool := [],
    saddr := "",
    sport := sport0 % 65536 }

/-- The helper `setErrorMsg`: the text `[%1]: %2` filled with `saddr` and `msg`. -/
def setErrorMsg (s : ServiceWorker) (msg : String) : String :=
  "[" ++ s.saddr ++ "]: " ++ msg

/-- The method `stopAllTimers`. -/
def stopAllTimers (s : ServiceWorker) : ServiceWorker :=
  { s with reqTimerPool := s.reqTimerPool.map ClientServiceCmdTimer.stop }

/-- The method `abortSocket`; the signals of `sock` are blocked meanwhile, so no
slot of the worker runs inside it. -/
def abortSocket (s : ServiceWorker) : ServiceWorker :=
  let s1 := s.stopAllTimers
  let k1 := if s1.sock.state ≠ SocketState.UnconnectedState then s1.sock.abort else s1.sock
  { s1 with sock := k1.close }

/-- The slot `connectToDaemon`; `port` is a `quint16`. -/
def connectToDaemon (s : ServiceWorker) (adr : String) (port : Nat) : Outcome :=
  let s1 := s.abortSocket
  ({ s1 with saddr := adr, sport := port % 65536, sock := s1.sock.connectToHost }, [])

/-- The slot `disconnectFromDaemon`. -/
def disconnectFromDaemon (s : ServiceWorker) : Outcome :=
  let s1 := s.abortSocket
  if s1.sock.isOpen then
    (s1, [Signal.logMessageSent "Failed to close daemon socket"])
  else
    (s1, [])

/-- The method `disconnect`: the worker afterwards and the returned flag. -/
def disconnect (s : ServiceWorker) : ServiceWorker × Bool :=
  let s1 := s.abortSocket
  (s1, !s1.sock.isOpen)

/-- The loop of `startRequestTimer`: resets the first timer that is not active;
`none` when the loop ends without a `return`. -/
def resetFirstInactive (adr : String) (cmd : DCMD) :
    List ClientServiceCmdTimer → Option (List ClientServiceCmdTimer)
  | [] => none
  | tm :: rest =>
    if tm.isActive then
      (resetFirstInactive adr cmd rest).map (fun pool => tm :: pool)
    else
      some (tm.reset adr cmd :: rest)

/-- The method `startRequestTimer`. -/
def startRequestTimer (s : ServiceWorker) (cmd : DCMD) : ServiceWorker :=
  match resetFirstInactive s.saddr cmd s.reqTimerPool with
  | some pool => { s with reqTimerPool := pool }
  | none =>
    { s with reqTimerPool := s.reqTimerPool ++ [(ClientServiceCmdTimer.new s.saddr cmd).start] }

/-- The loop of `stopTimerForCMD`: stops the first timer whose address and
command both match, whether it is active or not, and ends. -/
def stopFirstMatch (adr : String) (cmd : DCMD) :
    List ClientServiceCmdTimer → List ClientServiceCmdTimer
  | [] => []
  | tm :: rest =>
    if tm.getAddr ≠ adr ∨ tm.getCMD ≠ cmd then
      tm :: stopFirstMatch adr cmd rest
    else
      tm.stop :: rest

/-- The method `stopTimerForCMD`. -/
def stopTimerForCMD (s : ServiceWorker) (cmd : DCMD) : ServiceWorker :=
  { s with reqTimerPool := stopFirstMatch s.saddr cmd s.reqTimerPool }

/-- The method `hasValidMessageArgs`. -/
def hasValidMessageArgs (E : Extern) (args : List QVariant) : Bool :=
  match args with
  | [] => false
  | a0 :: _ =>
    match a0.toDCMD E with
    | .DAEMON_CMD_FAIL => if args.length < 1 then false else true
    | .PRINT_ERROR
    | .GET_DAEMON_SETTS
    | .APPLY_CLIENT_SETTINGS
    | .DELETE_PROFILE
    | .WRITE_PROFILE
    | .GET_PROFILE_LIST
    | .EXPORT_PROFILES
    | .IMPORT_PROFILES
    | .APPLY_TIMER
    | .APPLY_DAEMON_SETT
    | .SYS_WAKE_FROM_SLEEP => if args.length < 2 then false else true
    | .APPLY_PROFILE
    | .LOAD_PROFILE
    | .BATTERY_STATUS_CHANGED => if args.length < 3 then false else true
    | _ => true

/-- The two signals of a failed command: a log message, then `commandFailed`. -/
def failWith (msg : String) : List Signal :=
  [Signal.logMessageSent msg, Signal.commandFailed]

/-- The switch of `parseCMD`, entered once the message has passed
`hasValidMessageArgs`; `cmd` is the tag of `args[0]`. An index out of range
gives `none`. -/
def dispatch (E : Extern) (s : ServiceWorker) (cmd : DCMD) (args : List QVariant) :
    Option Outcome :=
  match cmd with
  | .PRINT_ERROR => do
    let a1 ← args[1]?
    pure (s, failWith (s.setErrorMsg (E.getErrorStr (a1.toInt E))))
  | .DAEMON_CMD_FAIL => do
    let a1 ← args[1]?
    pure (s.stopTimerForCMD (a1.toDCMD E), [])
  | .GET_DEVICE_INFO_PACKET => do
    let s1 := s.stopTimerForCMD cmd
    let a1 ← args[1]?
    match a1.toDeviceInfoPacket E with
    | none => pure (s1, failWith (s1.setErrorMsg "Unable to unpack device info packet"))
    | some packet =>
      if packet.error ≠ PacketError.NoError then
        pure (s1, failWith (E.getPacketErrorStr packet.error))
      else
        pure (s1, [Signal.deviceInfoPacketReceived packet])
  | .GET_DAEMON_PACKET => do
    let s1 := s.stopTimerForCMD cmd
    let a1 ← args[1]?
    match a1.toDaemonPacket E with
    | none => pure (s1, failWith (s1.setErrorMsg "Unable to unpack daemon packet"))
    | some packet =>
      if packet.error ≠ PacketError.NoError then
        pure (s1, failWith (E.getPacketErrorStr packet.error))
      else
        pure (s1, [Signal.daemonPacketReceived packet])
  | .GET_DAEMON_SETTS => do
    let s1 := s.stopTimerForCMD cmd
    let a1 ← args[1]?
    let data := a1.toByteArray E
    if data.isEmpty then
      pure (s1, failWith (s1.setErrorMsg "Unable to get daemon settings"))
    else
      pure (s1, [Signal.daemonSettingsReceived data])
  | .APPLY_CLIENT_SETTINGS => do
    let s1 := s.stopTimerForCMD cmd
    let a1 ← args[1]?
    match E.unpackErrors (a1.toByteArray E) with
    | none => pure (s1, failWith (s1.setErrorMsg "Unable to get apply settings result"))
    | some errors => pure (s1, [Signal.currentSettingsApplied errors])
  | .DELETE_PROFILE => do
    let s1 := s.stopTimerForCMD cmd
    let a1 ← args[1]?
    pure (s1, [Signal.profileDeleted (a1.toBool E)])
  | .WRITE_PROFILE => do
    let s1 := s.stopTimerForCMD cmd
    let a1 ← args[1]?
    pure (s1, [Signal.profileWritten (a1.toBool E)])
  | .GET_PROFILE_LIST => do
    let a1 ← args[1]?
    pure (s, [Signal.profileListReceived (a1.toStringList E)])
  | .APPLY_PROFILE => do
    let s1 := s.stopTimerForCMD cmd
    let a1 ← args[1]?
    match E.unpackErrors (a1.toByteArray E) with
    | none => pure (s1, failWith (s1.setErrorMsg "Unable to get apply profile result"))
    | some errors => do
      let a2 ← args[2]?
      pure (s1, [Signal.profileApplied errors (a2.toQString E)])
  | .LOAD_PROFILE => do
    let s1 := s.stopTimerForCMD cmd
    let a1 ← args[1]?
    match a1.toDaemonPacket E with
    | none => pure (s1, failWith (s1.setErrorMsg "Unable to unpack daemon packet"))
    | some packet => do
      let a2 ← args[2]?
      pure (s1, [Signal.logMessageSent ("Loaded profile: " ++ a2.toQString E),
                 Signal.daemonPacketReceived packet])
  | .EXPORT_PROFILES => do
    let s1 := s.stopTimerForCMD cmd
    let a1 ← args[1]?
    match E.unpackProfiles (a1.toByteArray E) with
    | none => pure (s1, failWith (s1.setErrorMsg "Failed to get exported profiles data"))
    | some exported => pure (s1, [Signal.profilesExported exported])
  | .IMPORT_PROFILES => do
    let s1 := s.stopTimerForCMD cmd
    let a1 ← args[1]?
    pure (s1, [Signal.profilesImported (a1.toBool E)])
  | .APPLY_DAEMON_SETT => do
    let s1 := s.stopTimerForCMD cmd
    let a1 ← args[1]?
    pure (s1, [Signal.daemonSettingsApplied (a1.toBool E)])
  | .BATTERY_STATUS_CHANGED => do
    let a1 ← args[1]?
    match E.unpackErrors (a1.toByteArray E) with
    | none =>
      pure (s, failWith (s.setErrorMsg "Unable to get battery status change event result"))
    | some errors => do
      let a2 ← args[2]?
      pure (s, [Signal.batteryStatusChanged errors (a2.toQString E)])
  | .SYS_WAKE_FROM_SLEEP => do
    let a1 ← args[1]?
    match E.unpackErrors (a1.toByteArray E) with
    | none => pure (s, failWith (s.setErrorMsg "Unable to get wake from sleep event result"))
    | some errors => pure (s, [Signal.wakeFromSleepEvent errors])
  | .APPLY_TIMER => do
    let a1 ← args[1]?
    match E.unpackErrors (a1.toByteArray E) with
    | none => pure (s, failWith (s.setErrorMsg "Unable to get apply timer result"))
    | some errors => pure (s, [Signal.applyTimerTick errors])
  | .other code =>
    let s1 := s.stopTimerForCMD cmd
    pure (s1, failWith (s1.setErrorMsg ("unknown cmd " ++ toString (E.dcmdInt (.other code)))))

/-- The method `parseCMD`. -/
def parseCMD (E : Extern) (s : ServiceWorker) (args : List QVariant) : Option Outcome :=
  if !hasValidMessageArgs E args then
    some (s, [Signal.logMessageSent (s.setErrorMsg "parseCMD: args is invalid"),
              Signal.serviceError])
  else
    match args with
    | [] => none
    | a0 :: _ => dispatch E s (a0.toDCMD E) args

end ServiceWorker

namespace ServiceWorker

/-- The method `sendCMD`. -/
def sendCMD (E : Extern) (s : ServiceWorker) (cmd : DCMD) (args : List QVariant) : Outcome :=
  match E.packArgs args with
  | none =>
    (s, failWith (s.setErrorMsg ("Failed to send cmd " ++ toString (E.dcmdInt cmd))))
  | some data =>
    (({ s with sock := s.sock.write data }).startRequestTimer cmd, [])

/-- The slot `sendGetDeviceInfoPacketRequest`. -/
def sendGetDeviceInfoPacketRequest (E : Extern) (s : ServiceWorker) : Outcome :=
  sendCMD E s .GET_DEVICE_INFO_PACKET [.int (E.dcmdInt .GET_DEVICE_INFO_PACKET)]

/-- The slot `sendGetDaemonPacketRequest`. -/
def sendGetDaemonPacketRequest (E : Extern) (s : ServiceWorker) : Outcome :=
  sendCMD E s .GET_DAEMON_PACKET [.int (E.dcmdInt .GET_DAEMON_PACKET)]

/-- The slot `sendApplySettingsRequest`. -/
def sendApplySettingsRequest (E : Extern) (s : ServiceWorker) (packet : ClientPacket) : Outcome :=
  sendCMD E s .APPLY_CLIENT_SETTINGS
    [.int (E.dcmdInt .APPLY_CLIENT_SETTINGS), .clientPacket packet]

/-- The slot `sendGetDaemonSettingsRequest`. -/
def sendGetDaemonSettingsRequest (E : Extern) (s : ServiceWorker) : Outcome :=
  sendCMD E s .GET_DAEMON_SETTS [.int (E.dcmdInt .GET_DAEMON_SETTS)]

/-- The slot `sendGetProfileListRequest`. -/
def sendGetProfileListRequest (E : Extern) (s : ServiceWorker) : Outcome :=
  sendCMD E s .GET_PROFILE_LIST [.int (E.dcmdInt .GET_PROFILE_LIST)]

/-- The slot `sendDeleteProfileRequest`. -/
def sendDeleteProfileRequest (E : Extern) (s : ServiceWorker) (name : String) : Outcome :=
  sendCMD E s .DELETE_PROFILE [.int (E.dcmdInt .DELETE_PROFILE), .string name]

/-- The slot `sendWriteProfileRequest`. -/
def sendWriteProfileRequest (E : Extern) (s : ServiceWorker) (name : String)
    (packet : ClientPacket) : Outcome :=
  sendCMD E s .WRITE_PROFILE
    [.int (E.dcmdInt .WRITE_PROFILE), .string name, .clientPacket packet]

/-- The slot `sendLoadProfileRequest`. -/
def sendLoadProfileRequest (E : Extern) (s : ServiceWorker) (name : String) : Outcome :=
  sendCMD E s .LOAD_PROFILE [.int (E.dcmdInt .LOAD_PROFILE), .string name]

/-- The slot `sendApplyProfileRequest`. -/
def sendApplyProfileRequest (E : Extern) (s : ServiceWorker) (name : String) : Outcome :=
  sendCMD E s .APPLY_PROFILE [.int (E.dcmdInt .APPLY_PROFILE), .string name]

/-- The slot `sendExportProfilesRequest`. -/
def sendExportProfilesRequest (E : Extern) (s : ServiceWorker) (name : String) : Outcome :=
  sendCMD E s .EXPORT_PROFILES [.int (E.dcmdInt .EXPORT_PROFILES), .string name]

/-- The slot `sendImportProfilesRequest`. -/
def sendImportProfilesRequest (E : Extern) (s : ServiceWorker) (profiles : Profiles) : Outcome :=
  match E.packProfiles profiles with
  | none =>
    (s, failWith (s.setErrorMsg "Import profiles: failed to pack profiles data for send"))
  | some profilesData =>
    sendCMD E s .IMPORT_PROFILES [.int (E.dcmdInt .IMPORT_PROFILES), .byteArray profilesData]

/-- The slot `sendApplyDaemonSettingsRequest`. -/
def sendApplyDaemonSettingsRequest (E : Extern) (s : ServiceWorker) (data : QByteArray) :
    Outcome :=
  sendCMD E s .APPLY_DAEMON_SETT [.int (E.dcmdInt .APPLY_DAEMON_SETT), .byteArray data]

/-- The slot `onConnected`. -/
def onConnected (s : ServiceWorker) : Outcome :=
  (s, [Signal.serviceConnected s.saddr s.sport])

/-- The slot `onDisconnected`. -/
def onDisconnected (s : ServiceWorker) : Outcome :=
  let r := s.disconnect
  if !r.2 then
    (r.1, [Signal.logMessageSent (r.1.setErrorMsg "failed to gracefully disconnect daemon!"),
           Signal.serviceDisconnected])
  else
    (r.1, [Signal.serviceDisconnected])

/-- The loop of `onReadyRead`; `fuel` bounds the number of messages read, and
every message read takes at least one byte of the buffer. -/
def readLoop (E : Extern) : Nat → ServiceWorker → Option Outcome
  | 0, s => some (s, [])
  | fuel + 1, s =>
    match s.sock.readBuffer with
    | [] => some (s, [])
    | b :: bs =>
      match E.readArgs (b :: bs) with
      | none => some (s, [])
      | some (args, k) =>
        let s1 := { s with sock := { s.sock with readBuffer := bs.drop k } }
        if args.isEmpty then
          some (s1, failWith (s1.setErrorMsg "Failed to get data from daemon"))
        else
          match parseCMD E s1 args with
          | none => none
          | some (s2, sigs) =>
            (readLoop E fuel s2).map (fun r => (r.1, sigs ++ r.2))

/-- The slot `onReadyRead`: the loop runs until a read does not commit, which
happens at the latest once the buffer is empty. -/
def onReadyRead (E : Extern) (s : ServiceWorker) : Option Outcome :=
  readLoop E s.sock.readBuffer.length s

/-- The log message `onErrorOccurred` chooses for a socket error. -/
def socketErrorMsg (s : ServiceWorker) : SocketError → String
  | .RemoteHostClosedError => s.setErrorMsg "Remote host connection closed"
  | .HostNotFoundError => s.setErrorMsg "Host not found"
  | .ConnectionRefusedError =>
    s.setErrorMsg
      "Connection refused, make sure server is running at given address and port"
  | .SocketResourceError =>
    "No more avilable sockets in you system, please retry later or manually close some of them"
  | .otherError _ => s.setErrorMsg s.sock.lastError

/-- The slot `onErrorOccurred`. -/
def onErrorOccurred (s : ServiceWorker) (error : SocketError) : Outcome :=
  let first := Signal.logMessageSent (s.socketErrorMsg error)
  let r := s.disconnect
  if !r.2 then
    (r.1, [first, Signal.logMessageSent (r.1.setErrorMsg "Failed to close connection on error"),
           Signal.serviceError])
  else
    (r.1, [first, Signal.serviceError])

/-- The text of the log message of `onCommandTimeout`: the pattern with
`.arg(sockAddr)` and then `.arg(static_cast<int>(cmd))` called on it, one after
the other, so that the second call sees the text the first has left. -/
def timeoutMsg (E : Extern) (sockAddr : String) (cmd : DCMD) : String :=
  E.qArg (E.qArg "[%1]: request timeout for command: %2" sockAddr) (toString (E.dcmdInt cmd))

/-- The slot `onCommandTimeout`. -/
def onCommandTimeout (E : Extern) (s : ServiceWorker) (sockAddr : String) (cmd : DCMD) :
    Outcome :=
  (s, [Signal.logMessageSent (timeoutMsg E sockAddr cmd), Signal.commandFailed])

/-- The expiry of the timer in slot `i` of the pool: `QTimer` stops a
single-shot timer and emits `timeout`, `onTimeout` emits
`commandTimeout(addr, dcmd)`, which runs `onCommandTimeout`. A timer that is not
active does not expire. -/
def timerExpired (E : Extern) (s : ServiceWorker) (i : Nat) : Outcome :=
  match s.reqTimerPool[i]? with
  | none => (s, [])
  | some tm =>
    if tm.isActive then
      onCommandTimeout E { s with reqTimerPool := s.reqTimerPool.set i tm.expire }
        tm.getAddr tm.getCMD
    else
      (s, [])

end ServiceWorker

/-! ## Requests and events -/

/-- The sendable requests: one per `send...Request` slot, with its arguments. -/
inductive Request where
  | getDeviceInfoPacket
  | getDaemonPacket
  | applySettings (packet : ClientPacket)
  | getDaemonSettings
  | getProfileList
  | deleteProfile (name : String)
  | writeProfile (name : String) (packet : ClientPacket)
  | loadProfile (name : String)
  | applyProfile (name : String)
  | exportProfiles (name : String)
  | importProfiles (profiles : Profiles)
  | applyDaemonSettings (data : QByteArray)
  deriving DecidableEq, Repr

namespace Request

/-- The command tag under which a request is sent. -/
def cmd : Request → DCMD
  | .getDeviceInfoPacket => .GET_DEVICE_INFO_PACKET
  | .getDaemonPacket => .GET_DAEMON_PACKET
  | .applySettings _ => .APPLY_CLIENT_SETTINGS
  | .getDaemonSettings => .GET_DAEMON_SETTS
  | .getProfileList => .GET_PROFILE_LIST
  | .deleteProfile _ => .DELETE_PROFILE
  | .writeProfile _ _ => .WRITE_PROFILE
  | .loadProfile _ => .LOAD_PROFILE
  | .applyProfile _ => .APPLY_PROFILE
  | .exportProfiles _ => .EXPORT_PROFILES
  | .importProfiles _ => .IMPORT_PROFILES
  | .applyDaemonSettings _ => .APPLY_DAEMON_SETT

/-- Whether every encoding step of the request succeeds. -/
def encodes (E : Extern) : Request → Bool
  | .getDeviceInfoPacket => (E.packArgs [.int (E.dcmdInt .GET_DEVICE_INFO_PACKET)]).isSome
  | .getDaemonPacket => (E.packArgs [.int (E.dcmdInt .GET_DAEMON_PACKET)]).isSome
  | .applySettings packet =>
    (E.packArgs [.int (E.dcmdInt .APPLY_CLIENT_SETTINGS), .clientPacket packet]).isSome
  | .getDaemonSettings => (E.packArgs [.int (E.dcmdInt .GET_DAEMON_SETTS)]).isSome
  | .getProfileList => (E.packArgs [.int (E.dcmdInt .GET_PROFILE_LIST)]).isSome
  | .deleteProfile name =>
    (E.packArgs [.int (E.dcmdInt .DELETE_PROFILE), .string name]).isSome
  | .writeProfile name packet =>
    (E.packArgs [.int (E.dcmdInt .WRITE_PROFILE), .string name, .clientPacket packet]).isSome
  | .loadProfile name => (E.packArgs [.int (E.dcmdInt .LOAD_PROFILE), .string name]).isSome
  | .applyProfile name => (E.packArgs [.int (E.dcmdInt .APPLY_PROFILE), .string name]).isSome
  | .exportProfiles name =>
    (E.packArgs [.int (E.dcmdInt .EXPORT_PROFILES), .string name]).isSome
  | .importProfiles profiles =>
    match E.packProfiles profiles with
    | none => false
    | some d => (E.packArgs [.int (E.dcmdInt .IMPORT_PROFILES), .byteArray d]).isSome
  | .applyDaemonSettings data =>
    (E.packArgs [.int (E.dcmdInt .APPLY_DAEMON_SETT), .byteArray data]).isSome

end Request

/-- The send slot of the worker that serves a request. -/
def ServiceWorker.send (E : Extern) (s : ServiceWorker) : Request → Outcome
  | .getDeviceInfoPacket => s.sendGetDeviceInfoPacketRequest E
  | .getDaemonPacket => s.sendGetDaemonPacketRequest E
  | .applySettings packet => s.sendApplySettingsRequest E packet
  | .getDaemonSettings => s.sendGetDaemonSettingsRequest E
  | .getProfileList => s.sendGetProfileListRequest E
  | .deleteProfile name => s.sendDeleteProfileRequest E name
  | .writeProfile name packet => s.sendWriteProfileRequest E name packet
  | .loadProfile name => s.sendLoadProfileRequest E name
  | .applyProfile name => s.sendApplyProfileRequest E name
  | .exportProfiles name => s.sendExportProfilesRequest E name
  | .importProfiles profiles => s.sendImportProfilesRequest E profiles
  | .applyDaemonSettings data => s.sendApplyDaemonSettingsRequest E data

/-- What the event loop of the worker thread delivers: a call queued by the
facade, a signal of the socket, or the expiry of a pool timer. -/
inductive Event where
  | connectToDaemon (adr : String) (port : Nat)
  | disconnectFromDaemon
  | send (r : Request)
  | sockConnected
  | sockDisconnected
  | sockReadyRead (bytes : QByteArray)
  | sockErrorOccurred (error : SocketError) (text : String)
  | timeout (slot : Nat)
  deriving DecidableEq, Repr

/-- One event handled by the worker. A socket signal first takes effect on the
socket (the new state, the received bytes, the error text), then the slot
connected to it runs. `none` when a slot reads a message out of range. -/
def ServiceWorker.step (E : Extern) (s : ServiceWorker) : Event → Option Outcome
  | .connectToDaemon adr port => some (s.connectToDaemon adr port)
  | .disconnectFromDaemon => some s.disconnectFromDaemon
  | .send r => some (s.send E r)
  | .sockConnected =>
    some (ServiceWorker.onConnected
      { s with sock := { s.sock with state := SocketState.ConnectedState } })
  | .sockDisconnected =>
    some (ServiceWorker.onDisconnected
      { s with sock := { s.sock with state := SocketState.UnconnectedState } })
  | .sockReadyRead bytes =>
    ServiceWorker.onReadyRead E
      { s with sock := { s.sock with readBuffer := s.sock.readBuffer ++ bytes } }
  | .sockErrorOccurred error text =>
    some (ServiceWorker.onErrorOccurred { s with sock := { s.sock with lastError := text } } error)
  | .timeout slot => some (s.timerExpired E slot)

/-- A sequence of events handled in order; the signals are concatenated. -/
def ServiceWorker.run (E : Extern) (s : ServiceWorker) : List Event → Option Outcome
  | [] => some (s, [])
  | ev :: evs =>
    match s.step E ev with
    | none => none
    | some (s1, sigs) => (ServiceWorker.run E s1 evs).map (fun r => (r.1, sigs ++ r.2))

/-- The workers that a sequence of events leads to from the worker as
constructed. -/
inductive ServiceWorker.Reachable (E : Extern) : ServiceWorker → Prop where
  | init (sport0 : Nat) (staysOpen : Bool) :
    ServiceWorker.Reachable E (ServiceWorker.initial sport0 staysOpen)
  | step (s : ServiceWorker) (ev : Event) (out : Outcome) :
    ServiceWorker.Reachable E s → s.step E ev = some out → ServiceWorker.Reachable E out.1

/-! ## The facade (`ClientService.h`, `ClientService.cpp`) -/

/-- The signals of `ClientService` that reach the caller. -/
inductive ClientSignal where
  | logMessageSent (msg : String)
  | serviceError
  | serviceConnected
  | serviceDisconnected
  | commandFailed
  | deviceInfoPacketReceived (packet : DeviceInfoPacket)
  | daemonPacketReceived (packet : DaemonPacket)
  | settingsApplied (errors : ErrorSet)
  | daemonSettingsApplied (success : Bool)
  | batteryStatusChanged (errors : ErrorSet) (name : String)
  | wakeFromSleepEvent (errors : ErrorSet)
  | applyTimerTick (errors : ErrorSet)
  | daemonSettingsReceived (data : QByteArray)
  | profileApplied (errors : ErrorSet) (name : String)
  | profileListReceived (list : List String)
  | profileDeleted (result : Bool)
  | profileWritten (result : Bool)
  | profilesExported (exported : Profiles)
  | profilesImported (result : Bool)
  deriving DecidableEq, Repr

/-- The members of `ClientService` that its accessors read. -/
structure ClientService where
  connected : Bool
  sport : Nat
  saddr : String
  deriving DecidableEq, Repr

namespace ClientService

/-- The value of a `quint16` initialised with `-1`. -/
def resetPort : Nat := 65535

/-- The facade as constructed: `connected = false`, `sport = -1`, `saddr` empty. -/
def initial : ClientService :=
  { connected := false, sport := resetPort, saddr := "" }

/-- The accessor `isConnected`. -/
def isConnected (c : ClientService) : Bool := c.connected

/-- The accessor `getDaemonAddress`. -/
def getDaemonAddress (c : ClientService) : String := c.saddr

/-- The accessor `getDaemonPort`. -/
def getDaemonPort (c : ClientService) : Nat := c.sport

/-- The slot `onServiceConnected`. -/
def onServiceConnected (c : ClientService) (adr : String) (port : Nat) :
    ClientService × List ClientSignal :=
  ({ c with saddr := adr, sport := port % 65536, connected := true },
   [ClientSignal.serviceConnected])

/-- The slot `onServiceDisconnected`. -/
def onServiceDisconnected (c : ClientService) : ClientService × List ClientSignal :=
  ({ c with saddr := "", sport := resetPort, connected := false },
   [ClientSignal.serviceDisconnected])

/-- The slot `onServiceError`. -/
def onServiceError (c : ClientService) : ClientService × List ClientSignal :=
  ({ c with connected := false }, [ClientSignal.serviceError])

/-- The slot that the constructor connects to each signal of the worker. -/
def receive (c : ClientService) : Signal → ClientService × List ClientSignal
  | .logMessageSent msg => (c, [ClientSignal.logMessageSent msg])
  | .serviceError => c.onServiceError
  | .serviceConnected adr port => c.onServiceConnected adr port
  | .serviceDisconnected => c.onServiceDisconnected
  | .commandFailed => (c, [ClientSignal.commandFailed])
  | .deviceInfoPacketReceived packet => (c, [ClientSignal.deviceInfoPacketReceived packet])
  | .daemonPacketReceived packet => (c, [ClientSignal.daemonPacketReceived packet])
  | .currentSettingsApplied errors => (c, [ClientSignal.settingsApplied errors])
  | .daemonSettingsApplied success => (c, [ClientSignal.daemonSettingsApplied success])
  | .batteryStatusChanged errors name => (c, [ClientSignal.batteryStatusChanged errors name])
  | .wakeFromSleepEvent errors => (c, [ClientSignal.wakeFromSleepEvent errors])
  | .applyTimerTick errors => (c, [ClientSignal.applyTimerTick errors])
  | .daemonSettingsReceived data => (c, [ClientSignal.daemonSettingsReceived data])
  | .profileApplied errors name => (c, [ClientSignal.profileApplied errors name])
  | .profileListReceived list => (c, [ClientSignal.profileListReceived list])
  | .profileDeleted result => (c, [ClientSignal.profileDeleted result])
  | .profileWritten result => (c, [ClientSignal.profileWritten result])
  | .profilesExported exported => (c, [ClientSignal.profilesExported exported])
  | .profilesImported result => (c, [ClientSignal.profilesImported result])

/-- The signals of the worker delivered to the facade in the order emitted. -/
def receiveAll (c : ClientService) : List Signal → ClientService × List ClientSignal
  | [] => (c, [])
  | sig :: sigs =>
    let r := c.receive sig
    let r2 := receiveAll r.1 sigs
    (r2.1, r.2 ++ r2.2)

end ClientService

/-- The facade together with its worker. -/
structure Service where
  client : ClientService
  worker : ServiceWorker
  deriving DecidableEq, Repr

namespace Service

/-- The service as constructed. -/
def initial (sport0 : Nat) (staysOpen : Bool) : Service :=
  { client := ClientService.initial, worker := ServiceWorker.initial sport0 staysOpen }

/-- One event handled by the worker, and the signals it emitted handled by the
facade. -/
def step (E : Extern) (v : Service) (ev : Event) : Option (Service × List ClientSignal) :=
  match v.worker.step E ev with
  | none => none
  | some (w, sigs) =>
    let r := v.client.receiveAll sigs
    some ({ client := r.1, worker := w }, r.2)

/-- A sequence of events handled in order. -/
def run (E : Extern) (v : Service) : List Event → Option (Service × List ClientSignal)
  | [] => some (v, [])
  | ev :: evs =>
    match v.step E ev with
    | none => none
    | some (v1, out) => (run E v1 evs).map (fun r => (r.1, out ++ r.2))

end Service

/-! ## Predicates on the timer pool -/

/-- The tags of the active timers of a pool, in pool order. -/
def activeTags (pool : List ClientServiceCmdTimer) : List (String × DCMD) :=
  (pool.filter ClientServiceCmdTimer.isActive).map ClientServiceCmdTimer.tag

/-- No two active timers of the pool carry the same (address, command) tag. -/
def UniqueActive (pool : List ClientServiceCmdTimer) : Prop :=
  (activeTags pool).Nodup

/-- Whether some active timer of the pool is tagged (`adr`, `cmd`). -/
def hasActive (adr : String) (cmd : DCMD) (pool : List ClientServiceCmdTimer) : Bool :=
  decide ((adr, cmd) ∈ activeTags pool)

/-- How many active timers of the pool are tagged (`adr`, `cmd`). -/
def countActive (adr : String) (cmd : DCMD) (pool : List ClientServiceCmdTimer) : Nat :=
  (activeTags pool).countP (fun t => decide (t = (adr, cmd)))

/-- The pool that `startRequestTimer` leaves, written as one recursion: the
first timer that is not active is reset, and a pool without one gets a new
started timer at its end. -/
def startPool (adr : String) (cmd : DCMD) :
    List ClientServiceCmdTimer → List ClientServiceCmdTimer
  | [] => [(ClientServiceCmdTimer.new adr cmd).start]
  | tm :: rest =>
    if tm.isActive then tm :: startPool adr cmd rest else tm.reset adr cmd :: rest

/-- The second pool is the first with some of its timers stopped and nothing
else changed. -/
def Stopped (pool pool2 : List ClientServiceCmdTimer) : Prop :=
  List.Forall₂ (fun a b => b = a ∨ b = a.stop) pool pool2

/-- Every timer of `w` is stopped, and the pool of `w` is otherwise the pool of
`s`: the same length and, slot by slot, the same tags. -/
def AllTimersStopped (s w : ServiceWorker) : Prop :=
  (∀ tm ∈ w.reqTimerPool, tm.isActive = false) ∧
    w.reqTimerPool.length = s.reqTimerPool.length ∧
    w.reqTimerPool.map ClientServiceCmdTimer.tag = s.reqTimerPool.map ClientServiceCmdTimer.tag

/-- The tags for which `hasValidMessageArgs` asks for at least 2 values. -/
def needsTwo : List DCMD :=
  [.PRINT_ERROR, .GET_DAEMON_SETTS, .APPLY_CLIENT_SETTINGS, .DELETE_PROFILE, .WRITE_PROFILE,
   .GET_PROFILE_LIST, .EXPORT_PROFILES, .IMPORT_PROFILES, .APPLY_TIMER, .APPLY_DAEMON_SETT,
   .SYS_WAKE_FROM_SLEEP]

/-- The tags for which `hasValidMessageArgs` asks for at least 3 values. -/
def needsThree : List DCMD :=
  [.APPLY_PROFILE, .LOAD_PROFILE, .BATTERY_STATUS_CHANGED]

/-- The signal is a notification other than a log message. -/
def Signal.isNotification : Signal → Bool
  | .logMessageSent _ => false
  | _ => true

/-- The 12 commands that a send slot sends. -/
def sendable : List DCMD :=
  [.GET_DEVICE_INFO_PACKET, .GET_DAEMON_PACKET, .APPLY_CLIENT_SETTINGS, .GET_DAEMON_SETTS,
   .GET_PROFILE_LIST, .DELETE_PROFILE, .WRITE_PROFILE, .LOAD_PROFILE, .APPLY_PROFILE,
   .EXPORT_PROFILES, .IMPORT_PROFILES, .APPLY_DAEMON_SETT]

/-! ## A sample environment

A concrete `Extern`, used to run the worker on concrete inputs: the commands are
numbered in the order of `DCMD`, the codec writes one byte per value and reads
two-byte messages `[tag, flag]`. -/

/-- The number of a command in the sample numbering. -/
def sampleCode : DCMD → Int
  | .DAEMON_CMD_FAIL => 0
  | .PRINT_ERROR => 1
  | .GET_DEVICE_INFO_PACKET => 2
  | .GET_DAEMON_PACKET => 3
  | .GET_DAEMON_SETTS => 4
  | .APPLY_CLIENT_SETTINGS => 5
  | .DELETE_PROFILE => 6
  | .WRITE_PROFILE => 7
  | .GET_PROFILE_LIST => 8
  | .APPLY_PROFILE => 9
  | .LOAD_PROFILE => 10
  | .EXPORT_PROFILES => 11
  | .IMPORT_PROFILES => 12
  | .APPLY_DAEMON_SETT => 13
  | .BATTERY_STATUS_CHANGED => 14
  | .SYS_WAKE_FROM_SLEEP => 15
  | .APPLY_TIMER => 16
  | .other code => code

/-- The command of a number in the sample numbering. -/
def sampleCast (n : Int) : DCMD :=
  if n = 0 then .DAEMON_CMD_FAIL
  else if n = 1 then .PRINT_ERROR
  else if n = 2 then .GET_DEVICE_INFO_PACKET
  else if n = 3 then .GET_DAEMON_PACKET
  else if n = 4 then .GET_DAEMON_SETTS
  else if n = 5 then .APPLY_CLIENT_SETTINGS
  else if n = 6 then .DELETE_PROFILE
  else if n = 7 then .WRITE_PROFILE
  else if n = 8 then .GET_PROFILE_LIST
  else if n = 9 then .APPLY_PROFILE
  else if n = 10 then .LOAD_PROFILE
  else if n = 11 then .EXPORT_PROFILES
  else if n = 12 then .IMPORT_PROFILES
  else if n = 13 then .APPLY_DAEMON_SETT
  else if n = 14 then .BATTERY_STATUS_CHANGED
  else if n = 15 then .SYS_WAKE_FROM_SLEEP
  else if n = 16 then .APPLY_TIMER
  else .other n

/-- The place marker at the start of a text, if one starts there: `%` and one
or two digits. The result is the number of the marker and its length. -/
def markerAt : List Char → Option (Nat × Nat)
  | c :: d :: rest =>
    if c = '%' ∧ d.isDigit = true then
      match rest with
      | d2 :: _ =>
        if d2.isDigit = true then some ((d.toNat - 48) * 10 + (d2.toNat - 48), 3)
        else some (d.toNat - 48, 2)
      | [] => some (d.toNat - 48, 2)
    else none
  | _ => none

/-- The lowest number among the place markers of a text. -/
def lowestMarker : List Char → Option Nat
  | [] => none
  | c :: rest =>
    match markerAt (c :: rest), lowestMarker rest with
    | some (n, _), some m => some (min n m)
    | some (n, _), none => some n
    | none, r => r

/-- The text with the characters `a` in the place of every place marker
numbered `n`; `skip` counts the characters of a replaced marker still to drop. -/
def fillMarker (n : Nat) (a : List Char) : Nat → List Char → List Char
  | _, [] => []
  | skip + 1, _ :: rest => fillMarker n a skip rest
  | 0, c :: rest =>
    match markerAt (c :: rest) with
    | some (m, len) =>
      if m = n then a ++ fillMarker n a (len - 1) rest else c :: fillMarker n a 0 rest
    | none => c :: fillMarker n a 0 rest

/-- The sample `qArg`: the argument takes the place of the lowest-numbered place
marker of the pattern; a pattern without a marker is left as it is. -/
def sampleArg (pattern a : String) : String :=
  match lowestMarker pattern.data with
  | none => pattern
  | some n => String.mk (fillMarker n a.data 0 pattern.data)

/-- The sample environment: every encoding succeeds. -/
def sampleExtern : Extern :=
  { castDCMD := sampleCast
    dcmdInt := sampleCode
    convInt := fun _ => 0
    convBool := fun _ => false
    convByteArray := fun _ => []
    convString := fun _ => ""
    convStringList := fun _ => []
    convDeviceInfoPacket := fun _ => none
    convDaemonPacket := fun _ => none
    getErrorStr := fun e => "error " ++ toString e
    getPacketErrorStr := fun _ => "packet error"
    packArgs := fun args => some [args.length]
    packProfiles := fun profiles => some [profiles.length]
    unpackErrors := fun d => some (d.map Int.ofNat)
    unpackProfiles := fun d => some [("profile", d)]
    readArgs := fun buf =>
      match buf with
      | t :: f :: _ => some ([.int (Int.ofNat t), .bool (decide (f ≠ 0))], 1)
      | _ => none
    qArg := sampleArg }

/-- The sample environment with a codec whose encoders fail. -/
def failingExtern : Extern :=
  { sampleExtern with packArgs := fun _ => none, packProfiles := fun _ => none }

/-- A worker connected to `127.0.0.1:9999` with an empty pool. -/
def sampleWorker : ServiceWorker :=
  { sock := { state := SocketState.ConnectedState, open_ := true, written := [],
              readBuffer := [], staysOpen := false, lastError := "" },
    reqTimerPool := [],
    saddr := "127.0.0.1",
    sport := 9999 }

/-- A timer of the pool tagged (`adr`, `cmd`), active or not. -/
def sampleTimer (adr : String) (cmd : DCMD) (active : Bool) : ClientServiceCmdTimer :=
  { dcmd := cmd, addr := adr, interval := reqTimeoutMs, singleShot := true, active := active }

/-- The sample environment with a reader that commits an empty message. -/
def emptyReadExtern : Extern :=
  { sampleExtern with readArgs := fun _ => some ([], 0) }

/-- The sample environment with a reader that commits, from every buffer that
is not empty, a message of one value: the tag in the first byte. -/
def shortReadExtern : Extern :=
  { sampleExtern with
    readArgs := fun buf =>
      match buf with
      | t :: _ => some ([.int (Int.ofNat t)], 0)
      | [] => none }

/-- A worker connected to `127.0.0.1:9999` whose pool is one active timer
tagged (`127.0.0.1`, `cmd`). -/
def waitingFor (cmd : DCMD) : ServiceWorker :=
  { sampleWorker with reqTimerPool := [sampleTimer "127.0.0.1" cmd true] }

/-- A worker connected to `127.0.0.1:9999` whose pool is two active timers, the
first tagged (`127.0.0.1`, `other`) and the second (`127.0.0.1`, `cmd`). -/
def waitingForTwo (other cmd : DCMD) : ServiceWorker :=
  { sampleWorker with
    reqTimerPool := [sampleTimer "127.0.0.1" other true, sampleTimer "127.0.0.1" cmd true] }

/-- The events of a session that sends the same request twice before any reply. -/
def resendSession : List Event :=
  [Event.connectToDaemon "127.0.0.1" 9999, Event.sockConnected,
   Event.send Request.getDaemonPacket, Event.send Request.getDaemonPacket]

/-- The events of a session that connects and is established. -/
def connectSession : List Event :=
  [Event.connectToDaemon "127.0.0.1" 9999, Event.sockConnected]

/-- The events of a session that sends one request and waits for the reply. -/
def waitingSession : List Event :=
  connectSession ++ [Event.send Request.getDaemonPacket]

/-- The worker after `waitingSession`: one active timer, for the request sent. -/
def waitingWorker : ServiceWorker :=
  { sampleWorker with
    sock := { sampleWorker.sock with written := [[1]] }
    reqTimerPool := [sampleTimer "127.0.0.1" DCMD.GET_DAEMON_PACKET true] }

/-! ## Predicates on messages, signals and the read buffer -/

/-- The tags whose case in `parseCMD` reads `args[1]` although
`hasValidMessageArgs` asks those messages for fewer than 2 values. -/
def unguarded : List DCMD :=
  [.DAEMON_CMD_FAIL, .GET_DEVICE_INFO_PACKET, .GET_DAEMON_PACKET]

/-- The message is accepted by `hasValidMessageArgs` and `parseCMD` then reads
an element past its end. -/
def readsOutOfRange (E : Extern) (args : List QVariant) : Bool :=
  match args with
  | [] => false
  | a0 :: _ =>
    ServiceWorker.hasValidMessageArgs E args && decide (a0.toDCMD E ∈ unguarded) &&
      decide (args.length < 2)

/-- The tag is one of the enumerators that `parseCMD` has a case for. -/
def DCMD.isNamed : DCMD → Bool
  | .other _ => false
  | _ => true

/-- The typed notifications: the signals that carry a decoded ErrorSet, a
boolean result or a payload. -/
def Signal.isTyped : Signal → Bool
  | .deviceInfoPacketReceived _ => true
  | .daemonPacketReceived _ => true
  | .currentSettingsApplied _ => true
  | .daemonSettingsApplied _ => true
  | .batteryStatusChanged _ _ => true
  | .wakeFromSleepEvent _ => true
  | .applyTimerTick _ => true
  | .daemonSettingsReceived _ => true
  | .profileApplied _ _ => true
  | .profileListReceived _ => true
  | .profileDeleted _ => true
  | .profileWritten _ => true
  | .profilesExported _ => true
  | .profilesImported _ => true
  | _ => false

/-- The signals of a list that are not log messages, in order. -/
def notifications (sigs : List Signal) : List Signal :=
  sigs.filter Signal.isNotification

/-- The worker with the bytes `buf` in the read buffer of its socket. -/
def ServiceWorker.withReadBuffer (s : ServiceWorker) (buf : QByteArray) : ServiceWorker :=
  { s with sock := { s.sock with readBuffer := buf } }

/-- One call of `parseCMD` on each message of a list, in order; the signals are
concatenated. -/
def parseAll (E : Extern) (s : ServiceWorker) : List (List QVariant) → Option Outcome
  | [] => some (s, [])
  | m :: ms =>
    match ServiceWorker.parseCMD E s m with
    | none => none
    | some (s1, sigs) => (parseAll E s1 ms).map (fun r => (r.1, sigs ++ r.2))

/-- The buffer `buf` holds the complete messages `msgs`, none of them empty, one
after the other, and then `tail`, which is not a complete message: the reader
commits each message of `msgs` in turn, taking its bytes, and does not commit
on `tail`. -/
def Framed (E : Extern) : QByteArray → List (List QVariant) → QByteArray → Prop
  | buf, [], tail => buf = tail ∧ (tail = [] ∨ E.readArgs tail = none)
  | buf, m :: ms, tail =>
    ∃ b bs k, buf = b :: bs ∧ E.readArgs (b :: bs) = some (m, k) ∧ m ≠ [] ∧
      Framed E (bs.drop k) ms tail

/-- The events of a session that sends write-profile twice before any reply and
then receives one reply. -/
def staleSession : List Event :=
  connectSession ++
    [Event.send (Request.writeProfile "p1" { body := [] }),
     Event.send (Request.writeProfile "p1" { body := [] }),
     Event.sockReadyRead [7, 1]]

/-- The pool after `staleSession`: the first timer stopped by the reply, the
second, with the same tag, still active. -/
def stalePool : List ClientServiceCmdTimer :=
  [sampleTimer "127.0.0.1" DCMD.WRITE_PROFILE false,
   sampleTimer "127.0.0.1" DCMD.WRITE_PROFILE true]

/-! ## Lemmas on the timer pool and on the slots -/

open ServiceWorker

theorem startRequestTimer_pool (s : ServiceWorker) (cmd : DCMD) :
    (s.startRequestTimer cmd).reqTimerPool = startPool s.saddr cmd s.reqTimerPool := by
  have key : ∀ pool : List ClientServiceCmdTimer,
      (match resetFirstInactive s.saddr cmd pool with
        | some p => p
        | none => pool ++ [(ClientServiceCmdTimer.new s.saddr cmd).start])
        = startPool s.saddr cmd pool := by
    intro pool
    induction pool with
    | nil => rfl
    | cons tm rest ih =>
      by_cases h : tm.isActive = true
      · simp only [resetFirstInactive, startPool, h, if_true]
        cases hr : resetFirstInactive s.saddr cmd rest with
        | none => simp [hr] at ih ⊢; exact ih
        | some p => simp [hr] at ih ⊢; exact ih
      · simp [resetFirstInactive, startPool, h]
  have := key s.reqTimerPool
  unfold startRequestTimer
  cases hr : resetFirstInactive s.saddr cmd s.reqTimerPool with
  | none => simp [hr] at this ⊢; exact this
  | some p => simp [hr] at this ⊢; exact this

theorem startRequestTimer_frame (s : ServiceWorker) (cmd : DCMD) :
    (s.startRequestTimer cmd).saddr = s.saddr ∧ (s.startRequestTimer cmd).sport = s.sport ∧
      (s.startRequestTimer cmd).sock = s.sock := by
  unfold startRequestTimer
  cases resetFirstInactive s.saddr cmd s.reqTimerPool <;> simp

theorem activeTags_cons (tm : ClientServiceCmdTimer) (rest : List ClientServiceCmdTimer) :
    activeTags (tm :: rest) =
      if tm.isActive then tm.tag :: activeTags rest else activeTags rest := by
  unfold activeTags
  by_cases h : tm.isActive = true <;> simp [List.filter_cons, h]

theorem activeTags_startPool (adr : String) (cmd : DCMD) (pool : List ClientServiceCmdTimer) :
    (activeTags (startPool adr cmd pool)).Perm ((adr, cmd) :: activeTags pool) := by
  induction pool with
  | nil => simp [startPool, activeTags, ClientServiceCmdTimer.start, ClientServiceCmdTimer.new,
      ClientServiceCmdTimer.isActive, ClientServiceCmdTimer.tag]
  | cons tm rest ih =>
    by_cases h : tm.isActive = true
    · simp only [startPool, h, if_true, activeTags_cons]
      exact (List.Perm.cons _ ih).trans (List.Perm.swap _ _ _)
    · have hr : (tm.reset adr cmd).isActive = true := rfl
      have ht : (tm.reset adr cmd).tag = (adr, cmd) := rfl
      simp [startPool, h, activeTags_cons, hr, ht]

theorem stopped_refl (pool : List ClientServiceCmdTimer) : Stopped pool pool := by
  induction pool with
  | nil => exact List.Forall₂.nil
  | cons tm rest ih => exact List.Forall₂.cons (Or.inl rfl) ih

theorem stopped_stopFirstMatch (adr : String) (cmd : DCMD) (pool : List ClientServiceCmdTimer) :
    Stopped pool (stopFirstMatch adr cmd pool) := by
  induction pool with
  | nil => exact List.Forall₂.nil
  | cons tm rest ih =>
    by_cases h : tm.getAddr ≠ adr ∨ tm.getCMD ≠ cmd
    · simp only [stopFirstMatch, h, if_true]
      exact List.Forall₂.cons (Or.inl rfl) ih
    · simp only [stopFirstMatch, h, if_false]
      exact List.Forall₂.cons (Or.inr rfl) (stopped_refl rest)

theorem stopped_map_stop (pool : List ClientServiceCmdTimer) :
    Stopped pool (pool.map ClientServiceCmdTimer.stop) := by
  induction pool with
  | nil => exact List.Forall₂.nil
  | cons tm rest ih => exact List.Forall₂.cons (Or.inr rfl) ih

theorem stopped_set (pool : List ClientServiceCmdTimer) (i : Nat) (tm tm2 : ClientServiceCmdTimer)
    (hi : pool[i]? = some tm) (h2 : tm2 = tm ∨ tm2 = tm.stop) :
    Stopped pool (pool.set i tm2) := by
  induction pool generalizing i with
  | nil => exact List.Forall₂.nil
  | cons a rest ih =>
    cases i with
    | zero =>
      simp at hi
      subst hi
      exact List.Forall₂.cons h2 (stopped_refl rest)
    | succ j =>
      simp at hi
      exact List.Forall₂.cons (Or.inl rfl) (ih j hi)

theorem stopped_activeTags (pool pool2 : List ClientServiceCmdTimer) (h : Stopped pool pool2) :
    (activeTags pool2).Sublist (activeTags pool) := by
  induction h with
  | nil => exact List.Sublist.refl _
  | @cons a b l1 l2 hab _ ih =>
    rw [activeTags_cons, activeTags_cons]
    rcases hab with rfl | rfl
    · by_cases h : b.isActive = true
      · simp only [h, if_true]; exact ih.cons₂ _
      · simp only [h]; exact ih
    · have hs : a.stop.isActive = false := rfl
      by_cases h : a.isActive = true
      · simp only [hs, h, if_true]; exact (ih.cons _)
      · simp only [hs, h]; exact ih

theorem stopped_length (pool pool2 : List ClientServiceCmdTimer) (h : Stopped pool pool2) :
    pool2.length = pool.length := (List.Forall₂.length_eq h).symm

theorem stopped_unique (pool pool2 : List ClientServiceCmdTimer) (h : Stopped pool pool2)
    (hu : UniqueActive pool) : UniqueActive pool2 :=
  List.Nodup.sublist (stopped_activeTags pool pool2 h) hu

theorem hasActive_eq_false_iff (adr : String) (cmd : DCMD) (pool : List ClientServiceCmdTimer) :
    hasActive adr cmd pool = false ↔ (adr, cmd) ∉ activeTags pool := by
  simp [hasActive]

theorem stopped_hasActive (pool pool2 : List ClientServiceCmdTimer) (h : Stopped pool pool2)
    (adr : String) (cmd : DCMD) (hn : hasActive adr cmd pool = false) :
    hasActive adr cmd pool2 = false := by
  rw [hasActive_eq_false_iff] at hn ⊢
  exact fun hm => hn ((stopped_activeTags pool pool2 h).subset hm)
theorem dispatch_state (E : Extern) (s : ServiceWorker) (cmd : DCMD) (args : List QVariant)
    (out : Outcome) (h : dispatch E s cmd args = some out) :
    out.1 = s ∨ ∃ c, out.1 = s.stopTimerForCMD c := by
  cases cmd <;> simp only [dispatch, bind, pure, Option.bind_eq_some] at h
  case other code =>
    simp only [Option.some.injEq] at h
    subst h
    exact Or.inr ⟨_, rfl⟩
  all_goals
    obtain ⟨a1, _, h⟩ := h
    repeat' split at h
    all_goals
      simp only [Option.bind_eq_some, Option.some.injEq] at h
      first
      | (obtain ⟨a2, _, h⟩ := h
         subst h
         first | exact Or.inl rfl | exact Or.inr ⟨_, rfl⟩)
      | (subst h
         first | exact Or.inl rfl | exact Or.inr ⟨_, rfl⟩)

theorem parseCMD_state (E : Extern) (s : ServiceWorker) (args : List QVariant)
    (out : Outcome) (h : parseCMD E s args = some out) :
    out.1 = s ∨ ∃ c, out.1 = s.stopTimerForCMD c := by
  unfold parseCMD at h
  split at h
  · simp only [Option.some.injEq] at h
    subst h
    exact Or.inl rfl
  · cases args with
    | nil => simp at h
    | cons a0 rest => exact dispatch_state E s _ _ out h

theorem parseCMD_frame (E : Extern) (s : ServiceWorker) (args : List QVariant)
    (out : Outcome) (h : parseCMD E s args = some out) :
    out.1.saddr = s.saddr ∧ out.1.sport = s.sport ∧ out.1.sock = s.sock ∧
      Stopped s.reqTimerPool out.1.reqTimerPool := by
  rcases parseCMD_state E s args out h with h1 | ⟨c, h1⟩
  · rw [h1]; exact ⟨rfl, rfl, rfl, stopped_refl _⟩
  · rw [h1]; exact ⟨rfl, rfl, rfl, stopped_stopFirstMatch _ _ _⟩

theorem stopped_trans (p1 p2 p3 : List ClientServiceCmdTimer) (h12 : Stopped p1 p2)
    (h23 : Stopped p2 p3) : Stopped p1 p3 := by
  induction h12 generalizing p3 with
  | nil => exact h23
  | @cons a b l1 l2 hab _ ih =>
    cases h23 with
    | @cons _ c _ l3 hbc hrest =>
      refine List.Forall₂.cons ?_ (ih l3 hrest)
      rcases hab with rfl | rfl
      · exact hbc
      · rcases hbc with rfl | rfl
        · exact Or.inr rfl
        · exact Or.inr rfl

theorem startPool_length (adr : String) (cmd : DCMD) (pool : List ClientServiceCmdTimer) :
    (startPool adr cmd pool).length =
      if pool.all ClientServiceCmdTimer.isActive then pool.length + 1 else pool.length := by
  induction pool with
  | nil => rfl
  | cons a rest ih =>
    by_cases h : a.isActive = true
    · simp only [startPool, h, if_true, List.length_cons, ih, List.all_cons, Bool.true_and]
      split <;> rfl
    · simp [startPool, h]

theorem abortSocket_frame (s : ServiceWorker) :
    s.abortSocket.reqTimerPool = s.reqTimerPool.map ClientServiceCmdTimer.stop ∧
      s.abortSocket.saddr = s.saddr ∧ s.abortSocket.sport = s.sport ∧
      s.abortSocket.sock.state = SocketState.UnconnectedState := by
  unfold abortSocket stopAllTimers
  exact ⟨rfl, rfl, rfl, rfl⟩

theorem readLoop_frame (E : Extern) (fuel : Nat) (s : ServiceWorker) (out : Outcome)
    (h : readLoop E fuel s = some out) :
    out.1.saddr = s.saddr ∧ out.1.sport = s.sport ∧
      Stopped s.reqTimerPool out.1.reqTimerPool := by
  induction fuel generalizing s out with
  | zero =>
    simp only [readLoop, Option.some.injEq] at h
    subst h
    exact ⟨rfl, rfl, stopped_refl _⟩
  | succ n ih =>
    unfold readLoop at h
    split at h
    · simp only [Option.some.injEq] at h
      subst h
      exact ⟨rfl, rfl, stopped_refl _⟩
    · split at h
      · simp only [Option.some.injEq] at h
        subst h
        exact ⟨rfl, rfl, stopped_refl _⟩
      · split at h
        · simp only [Option.some.injEq] at h
          subst h
          exact ⟨rfl, rfl, stopped_refl _⟩
        · dsimp only at h
          split at h
          · simp at h
          · rename_i s2 sigs hp
            simp only [Option.map_eq_some'] at h
            obtain ⟨r, hr, hout⟩ := h
            subst hout
            have h1 := parseCMD_frame E _ _ _ hp
            have h2 := ih s2 r hr
            exact ⟨h2.1.trans h1.1, h2.2.1.trans h1.2.1, stopped_trans _ _ _ h1.2.2.2 h2.2.2⟩

theorem timerExpired_frame (E : Extern) (s : ServiceWorker) (i : Nat) :
    (s.timerExpired E i).1.saddr = s.saddr ∧ (s.timerExpired E i).1.sport = s.sport ∧
      (s.timerExpired E i).1.sock = s.sock ∧
      Stopped s.reqTimerPool (s.timerExpired E i).1.reqTimerPool := by
  unfold timerExpired
  split
  · exact ⟨rfl, rfl, rfl, stopped_refl _⟩
  · rename_i tm htm
    split
    · rename_i hact
      refine ⟨rfl, rfl, rfl, ?_⟩
      simp only [onCommandTimeout]
      apply stopped_set _ _ tm _ htm
      cases hs : tm.singleShot
      · left
        cases tm
        simp only [ClientServiceCmdTimer.isActive] at hact
        simp only [ClientServiceCmdTimer.expire] at *
        simp_all
      · right
        cases tm
        simp only [ClientServiceCmdTimer.expire, ClientServiceCmdTimer.stop] at *
        simp_all
    · exact ⟨rfl, rfl, rfl, stopped_refl _⟩

theorem send_encoded (E : Extern) (s : ServiceWorker) (r : Request)
    (h : r.encodes E = true) :
    (s.send E r).2 = [] ∧
      (s.send E r).1.reqTimerPool = startPool s.saddr r.cmd s.reqTimerPool ∧
      (s.send E r).1.saddr = s.saddr ∧ (s.send E r).1.sport = s.sport ∧
      ∃ data, (s.send E r).1.sock = s.sock.write data := by
  have key : ∀ (cmd : DCMD) (args : List QVariant), (E.packArgs args).isSome = true →
      (sendCMD E s cmd args).2 = [] ∧
      (sendCMD E s cmd args).1.reqTimerPool = startPool s.saddr cmd s.reqTimerPool ∧
      (sendCMD E s cmd args).1.saddr = s.saddr ∧ (sendCMD E s cmd args).1.sport = s.sport ∧
      ∃ data, (sendCMD E s cmd args).1.sock = s.sock.write data := by
    intro cmd args hp
    obtain ⟨data, hd⟩ := Option.isSome_iff_exists.mp hp
    have hs : sendCMD E s cmd args =
        (({ s with sock := s.sock.write data }).startRequestTimer cmd, []) := by
      simp only [sendCMD, hd]
    rw [hs]
    refine ⟨rfl, ?_, ?_, ?_, data, ?_⟩
    · rw [startRequestTimer_pool]
    · exact (startRequestTimer_frame _ _).1
    · exact (startRequestTimer_frame _ _).2.1
    · exact (startRequestTimer_frame _ _).2.2
  cases r
  case importProfiles profiles =>
    simp only [Request.encodes] at h
    simp only [ServiceWorker.send, sendImportProfilesRequest, Request.cmd]
    split at h
    · simp at h
    · exact key _ _ h
  all_goals exact key _ _ h

theorem send_not_encoded (E : Extern) (s : ServiceWorker) (r : Request)
    (h : r.encodes E = false) : ∃ msg, s.send E r = (s, failWith msg) := by
  have key : ∀ (cmd : DCMD) (args : List QVariant), (E.packArgs args).isSome = false →
      ∃ msg, sendCMD E s cmd args = (s, failWith msg) := by
    intro cmd args hp
    have hd : E.packArgs args = none := by
      cases hq : E.packArgs args with
      | none => rfl
      | some d => simp [hq] at hp
    exact ⟨s.setErrorMsg ("Failed to send cmd " ++ toString (E.dcmdInt cmd)),
      by simp only [sendCMD, hd]⟩
  cases r
  case importProfiles profiles =>
    simp only [Request.encodes] at h
    simp only [ServiceWorker.send, sendImportProfilesRequest]
    split at h
    · exact ⟨s.setErrorMsg "Import profiles: failed to pack profiles data for send", rfl⟩
    · exact key _ _ h
  all_goals exact key _ _ h

theorem step_stopped (E : Extern) (s : ServiceWorker) (ev : Event) (out : Outcome)
    (h : s.step E ev = some out) (hev : ∀ r, ev = Event.send r → r.encodes E = false) :
    Stopped s.reqTimerPool out.1.reqTimerPool := by
  cases ev with
  | connectToDaemon adr port =>
    simp only [ServiceWorker.step, Option.some.injEq] at h
    subst h
    simp only [connectToDaemon, (abortSocket_frame s).1]
    exact stopped_map_stop _
  | disconnectFromDaemon =>
    simp only [ServiceWorker.step, Option.some.injEq] at h
    subst h
    have hp : s.disconnectFromDaemon.1 = s.abortSocket := by
      unfold disconnectFromDaemon
      dsimp only
      split <;> rfl
    rw [hp, (abortSocket_frame s).1]
    exact stopped_map_stop _
  | send r =>
    simp only [ServiceWorker.step, Option.some.injEq] at h
    subst h
    obtain ⟨msg, hm⟩ := send_not_encoded E s r (hev r rfl)
    rw [hm]
    exact stopped_refl _
  | sockConnected =>
    simp only [ServiceWorker.step, Option.some.injEq] at h
    subst h
    exact stopped_refl _
  | sockDisconnected =>
    simp only [ServiceWorker.step, Option.some.injEq] at h
    subst h
    have hp : ∀ t : ServiceWorker, (onDisconnected t).1 = t.abortSocket := by
      intro t
      unfold onDisconnected
      dsimp only
      split <;> rfl
    rw [hp, (abortSocket_frame _).1]
    exact stopped_map_stop _
  | sockReadyRead bytes =>
    simp only [ServiceWorker.step, onReadyRead] at h
    exact (readLoop_frame E _ _ out h).2.2
  | sockErrorOccurred error text =>
    simp only [ServiceWorker.step, Option.some.injEq] at h
    subst h
    have hp : ∀ t : ServiceWorker, (onErrorOccurred t error).1 = t.abortSocket := by
      intro t
      unfold onErrorOccurred
      dsimp only
      split <;> rfl
    rw [hp, (abortSocket_frame _).1]
    exact stopped_map_stop _
  | timeout slot =>
    simp only [ServiceWorker.step, Option.some.injEq] at h
    subst h
    exact (timerExpired_frame E s slot).2.2.2

theorem start_then_stop (adr : String) (cmd : DCMD) (pool : List ClientServiceCmdTimer)
    (h : hasActive adr cmd pool = false) :
    hasActive adr cmd (stopFirstMatch adr cmd (startPool adr cmd pool)) = false := by
  induction pool with
  | nil =>
    simp [startPool, stopFirstMatch, hasActive, activeTags, ClientServiceCmdTimer.new,
      ClientServiceCmdTimer.start, ClientServiceCmdTimer.stop, ClientServiceCmdTimer.getAddr,
      ClientServiceCmdTimer.getCMD, ClientServiceCmdTimer.isActive]
  | cons tm rest ih =>
    rw [hasActive_eq_false_iff] at h ⊢
    rw [activeTags_cons] at h
    by_cases ha : tm.isActive = true
    · simp only [ha, if_true, List.mem_cons, not_or] at h
      have hne : tm.getAddr ≠ adr ∨ tm.getCMD ≠ cmd := by
        by_contra hc
        push_neg at hc
        apply h.1
        cases tm
        simp only [ClientServiceCmdTimer.getAddr, ClientServiceCmdTimer.getCMD] at hc
        simp [ClientServiceCmdTimer.tag, hc.1, hc.2]
      simp only [startPool, ha, if_true, stopFirstMatch, hne, activeTags_cons, List.mem_cons,
        not_or]
      exact ⟨h.1, (hasActive_eq_false_iff _ _ _).mp (ih ((hasActive_eq_false_iff _ _ _).mpr h.2))⟩
    · simp only [ha] at h
      have hm : ¬ ((tm.reset adr cmd).getAddr ≠ adr ∨ (tm.reset adr cmd).getCMD ≠ cmd) := by
        simp [ClientServiceCmdTimer.reset, ClientServiceCmdTimer.start,
          ClientServiceCmdTimer.getAddr, ClientServiceCmdTimer.getCMD]
      have hst : (tm.reset adr cmd).stop.isActive = false := rfl
      simp only [startPool, ha, stopFirstMatch, hm, activeTags_cons, hst]
      exact h

theorem dispatch_stops_own_timer (E : Extern) (s : ServiceWorker) (cmd : DCMD)
    (args : List QVariant) (out : Outcome) (hc : cmd ∈ sendable)
    (hr : cmd ≠ DCMD.GET_PROFILE_LIST) (h : dispatch E s cmd args = some out) :
    out.1 = s.stopTimerForCMD cmd := by
  cases cmd <;> simp only [sendable, List.mem_cons, List.mem_singleton, List.not_mem_nil,
    or_false, reduceCtorEq, or_self, ne_eq, not_true_eq_false] at hc hr <;>
    simp only [dispatch, bind, pure, Option.bind_eq_some] at h
  all_goals
    obtain ⟨a1, _, h⟩ := h
    repeat' split at h
    all_goals
      simp only [Option.bind_eq_some, Option.some.injEq] at h
      first
      | (obtain ⟨a2, _, h⟩ := h
         subst h
         rfl)
      | (subst h
         rfl)

theorem reply_stops_own_timer (E : Extern) (s : ServiceWorker) (r : Request)
    (a0 : QVariant) (rest : List QVariant) (out : Outcome)
    (hr : r.cmd ≠ DCMD.GET_PROFILE_LIST)
    (hfree : hasActive s.saddr r.cmd s.reqTimerPool = false)
    (henc : r.encodes E = true)
    (htag : a0.toDCMD E = r.cmd)
    (hv : hasValidMessageArgs E (a0 :: rest) = true)
    (hp : parseCMD E (s.send E r).1 (a0 :: rest) = some out) :
    hasActive out.1.saddr r.cmd out.1.reqTimerPool = false := by
  obtain ⟨_, hpool, haddr, _, _⟩ := send_encoded E s r henc
  have hmem : r.cmd ∈ sendable := by cases r <;> simp [Request.cmd, sendable]
  have hstop : out.1 = (s.send E r).1.stopTimerForCMD r.cmd := by
    simp only [parseCMD, hv, Bool.not_true, htag] at hp
    exact dispatch_stops_own_timer E _ _ _ out hmem hr hp
  rw [hstop]
  simp only [stopTimerForCMD, haddr, hpool]
  exact start_then_stop _ _ _ hfree

theorem invalid_message_outcome (E : Extern) (s : ServiceWorker) (args : List QVariant)
    (h : hasValidMessageArgs E args = false) :
    parseCMD E s args =
      some (s, [Signal.logMessageSent (s.setErrorMsg "parseCMD: args is invalid"),
                Signal.serviceError]) := by
  simp only [parseCMD, h, Bool.not_false, if_true]

theorem run_reachable (E : Extern) (evs : List Event) (s : ServiceWorker) (out : Outcome)
    (hs : ServiceWorker.Reachable E s) (h : ServiceWorker.run E s evs = some out) :
    ServiceWorker.Reachable E out.1 := by
  induction evs generalizing s out with
  | nil =>
    simp only [ServiceWorker.run, Option.some.injEq] at h
    subst h
    exact hs
  | cons ev evs ih =>
    unfold ServiceWorker.run at h
    split at h
    · simp at h
    · rename_i s1 sigs hstep
      simp only [Option.map_eq_some'] at h
      obtain ⟨r, hr, hout⟩ := h
      subst hout
      exact ih s1 r (ServiceWorker.Reachable.step s ev (s1, sigs) hs hstep) hr

theorem countActive_startPool (adr : String) (cmd : DCMD) (pool : List ClientServiceCmdTimer) :
    countActive adr cmd (startPool adr cmd pool) = countActive adr cmd pool + 1 := by
  unfold countActive
  rw [(activeTags_startPool adr cmd pool).countP_eq]
  simp [List.countP_cons]

theorem unique_startPool (adr : String) (cmd : DCMD) (pool : List ClientServiceCmdTimer)
    (hu : UniqueActive pool) (hfree : hasActive adr cmd pool = false) :
    UniqueActive (startPool adr cmd pool) := by
  unfold UniqueActive at hu ⊢
  rw [(activeTags_startPool adr cmd pool).nodup_iff]
  exact List.nodup_cons.mpr ⟨(hasActive_eq_false_iff _ _ _).mp hfree, hu⟩

theorem allTimersStopped_abortSocket (s : ServiceWorker) : AllTimersStopped s s.abortSocket := by
  unfold AllTimersStopped
  rw [(abortSocket_frame s).1]
  refine ⟨?_, by simp, ?_⟩
  · intro tm htm
    obtain ⟨t, _, rfl⟩ := List.mem_map.mp htm
    rfl
  · rw [List.map_map]
    rfl

theorem timerExpired_of_stopped (E : Extern) (w : ServiceWorker) (i : Nat)
    (h : ∀ tm ∈ w.reqTimerPool, tm.isActive = false) : w.timerExpired E i = (w, []) := by
  unfold timerExpired
  split
  · rfl
  · rename_i tm htm
    simp [h tm (List.getElem?_mem htm)]

theorem disconnectFromDaemon_worker (s : ServiceWorker) :
    s.disconnectFromDaemon.1 = s.abortSocket := by
  unfold disconnectFromDaemon
  dsimp only
  split <;> rfl

theorem onDisconnected_worker (s : ServiceWorker) : (onDisconnected s).1 = s.abortSocket := by
  unfold onDisconnected
  dsimp only
  split <;> rfl

theorem onErrorOccurred_worker (s : ServiceWorker) (error : SocketError) :
    (onErrorOccurred s error).1 = s.abortSocket := by
  unfold onErrorOccurred
  dsimp only
  split <;> rfl

theorem receiveAll_log_disconnected (c : ClientService) (msgs : List String) :
    (c.receiveAll ((msgs.map Signal.logMessageSent) ++ [Signal.serviceDisconnected])).1 =
      { connected := false, sport := ClientService.resetPort, saddr := "" } := by
  induction msgs generalizing c with
  | nil => rfl
  | cons m rest ih =>
    simp only [List.map_cons, List.cons_append, ClientService.receiveAll, ClientService.receive]
    exact ih c


/-! ## Message validation (C1) -/

/-- C1: a message that is not empty, whose tag asks for at least 2 values
(`needsTwo`) and that has fewer than 2, or whose tag asks for at least 3
(`needsThree`) and that has fewer than 3, is refused by `hasValidMessageArgs`,
and `parseCMD` returns before its switch: the worker is unchanged (no timer is
stopped), and the signals are one log message and `serviceError`, whatever the
decoders of `E` are (none is called) and with no typed notification. -/
theorem short_message_rejected (E : Extern) (s : ServiceWorker) (args : List QVariant)
    (a0 : QVariant) (h0 : args[0]? = some a0)
    (h : (a0.toDCMD E ∈ needsTwo ∧ args.length < 2) ∨
      (a0.toDCMD E ∈ needsThree ∧ args.length < 3)) :
    hasValidMessageArgs E args = false ∧
      parseCMD E s args =
        some (s, [Signal.logMessageSent (s.setErrorMsg "parseCMD: args is invalid"),
                  Signal.serviceError]) := by
  have hv : hasValidMessageArgs E args = false := by
    cases args with
    | nil => rfl
    | cons b rest =>
      simp only [List.getElem?_cons_zero, Option.some.injEq] at h0
      subst h0
      simp only [needsTwo, needsThree, List.mem_cons, List.mem_singleton, List.not_mem_nil,
        or_false] at h
      unfold hasValidMessageArgs
      rcases h with ⟨hm, hl⟩ | ⟨hm, hl⟩
      · rcases hm with hm | hm | hm | hm | hm | hm | hm | hm | hm | hm | hm <;>
          simp only [hm, hl, if_true]
      · rcases hm with hm | hm | hm <;> simp only [hm, hl, if_true]
  exact ⟨hv, invalid_message_outcome E s args hv⟩

/-- C1, witness: a write-profile reply without its result value. -/
theorem short_message_rejected_witness :
    hasValidMessageArgs sampleExtern [QVariant.int 7] = false ∧
      parseCMD sampleExtern sampleWorker [QVariant.int 7] =
        some (sampleWorker,
          [Signal.logMessageSent (sampleWorker.setErrorMsg "parseCMD: args is invalid"),
           Signal.serviceError]) :=
  short_message_rejected sampleExtern sampleWorker [QVariant.int 7] (QVariant.int 7) rfl
    (Or.inl ⟨by decide, by decide⟩)

/-! ## One active timer per tag (C3) -/

/-- C3, counterexample: the session that connects and sends get-daemon-packet
twice before any reply reaches a worker whose pool holds two active timers with
the same tag; the second send did not restart the first timer. -/
theorem resend_duplicates_active_timer :
    ∃ s : ServiceWorker, ServiceWorker.Reachable sampleExtern s ∧
      s.reqTimerPool =
        [sampleTimer "127.0.0.1" DCMD.GET_DAEMON_PACKET true,
         sampleTimer "127.0.0.1" DCMD.GET_DAEMON_PACKET true] ∧
      countActive s.saddr DCMD.GET_DAEMON_PACKET s.reqTimerPool = 2 ∧
      ¬ UniqueActive s.reqTimerPool := by
  have hrun : ServiceWorker.run sampleExtern (ServiceWorker.initial 0 false) resendSession =
      some ({ sampleWorker with
                sock := { sampleWorker.sock with written := [[1], [1]] }
                reqTimerPool := [sampleTimer "127.0.0.1" DCMD.GET_DAEMON_PACKET true,
                                 sampleTimer "127.0.0.1" DCMD.GET_DAEMON_PACKET true] },
            [Signal.serviceConnected "127.0.0.1" 9999]) := by decide
  refine ⟨_, run_reachable sampleExtern _ _ _ (ServiceWorker.Reachable.init 0 false) hrun,
    rfl, by decide, ?_⟩
  unfold UniqueActive
  decide

/-- C3, amended: for every event the worker handles, (1) if no two active timers
share a tag before, and the event is not a send whose encoding succeeds of a
command whose tag (current address, command) is on an active timer, then no two
active timers share a tag afterwards: every inbound message, timer expiry,
connect and disconnect, every send whose encoding fails, and every send of a
command without an active timer keeps the active tags distinct; (2) a send
whose encoding succeeds emits nothing, does not shrink the pool and raises the
number of active timers tagged (current address, command) by exactly one,
whether or not one was active before. -/
theorem unique_active_preserved (E : Extern) (s : ServiceWorker) (ev : Event) (out : Outcome)
    (hstep : s.step E ev = some out) :
    (UniqueActive s.reqTimerPool →
        (∀ r, ev = Event.send r → r.encodes E = true →
          hasActive s.saddr r.cmd s.reqTimerPool = false) →
        UniqueActive out.1.reqTimerPool) ∧
      (∀ r, ev = Event.send r → r.encodes E = true →
        out.2 = [] ∧
        out.1.reqTimerPool.length ≥ s.reqTimerPool.length ∧
        countActive s.saddr r.cmd out.1.reqTimerPool =
          countActive s.saddr r.cmd s.reqTimerPool + 1) := by
  constructor
  · intro hu hsend
    by_cases hev : ∀ r, ev = Event.send r → r.encodes E = false
    · exact stopped_unique _ _ (step_stopped E s ev out hstep hev) hu
    · push_neg at hev
      obtain ⟨r, rfl, hr⟩ := hev
      simp only [ServiceWorker.step, Option.some.injEq] at hstep
      subst hstep
      have hr2 : r.encodes E = true := by simpa using hr
      rw [(send_encoded E s r hr2).2.1]
      exact unique_startPool _ _ _ hu (hsend r rfl hr2)
  · intro r hev hr
    subst hev
    simp only [ServiceWorker.step, Option.some.injEq] at hstep
    subst hstep
    obtain ⟨hsig, hpool, _⟩ := send_encoded E s r hr
    refine ⟨hsig, ?_, ?_⟩
    · rw [hpool, startPool_length]
      split <;> omega
    · rw [hpool]
      exact countActive_startPool _ _ _

/-- C3, witness of the amended claim: on the worker that waits for the reply
to get-daemon-packet, a second send of get-daemon-packet whose encoding fails
keeps the active tags distinct, and a send of write-profile whose encoding
succeeds adds one active timer with a new tag and keeps them distinct. -/
theorem unique_active_preserved_witness :
    UniqueActive (waitingWorker.send failingExtern Request.getDaemonPacket).1.reqTimerPool ∧
      UniqueActive
        (waitingWorker.send sampleExtern
          (Request.writeProfile "p1" { body := [] })).1.reqTimerPool ∧
      countActive waitingWorker.saddr DCMD.WRITE_PROFILE
          (waitingWorker.send sampleExtern
            (Request.writeProfile "p1" { body := [] })).1.reqTimerPool =
        countActive waitingWorker.saddr DCMD.WRITE_PROFILE waitingWorker.reqTimerPool + 1 :=
  ⟨(unique_active_preserved failingExtern waitingWorker (Event.send Request.getDaemonPacket)
      (waitingWorker.send failingExtern Request.getDaemonPacket) rfl).1
      (by unfold UniqueActive; decide)
      (fun r hr henc => by
        have hreq : r = Request.getDaemonPacket := (Event.send.inj hr).symm
        subst hreq
        exact absurd henc (by decide)),
   (unique_active_preserved sampleExtern waitingWorker
      (Event.send (Request.writeProfile "p1" { body := [] }))
      (waitingWorker.send sampleExtern (Request.writeProfile "p1" { body := [] })) rfl).1
      (by unfold UniqueActive; decide)
      (fun r hr _ => by
        have hreq : r = Request.writeProfile "p1" { body := [] } := (Event.send.inj hr).symm
        subst hreq
        decide),
   ((unique_active_preserved sampleExtern waitingWorker
      (Event.send (Request.writeProfile "p1" { body := [] }))
      (waitingWorker.send sampleExtern (Request.writeProfile "p1" { body := [] })) rfl).2
      (Request.writeProfile "p1" { body := [] }) rfl (by decide)).2.2⟩

/-! ## Request and reply (C4, C5) -/

/-- C4, the code at a failing input: on a connected worker with an empty pool,
`sendGetProfileListRequest` followed by `parseCMD` of the valid reply
`[get-profile-list, ["a", "b"]]` raises `profileListReceived` and leaves the
timer tagged (current address, get-profile-list) active; its expiry then raises
a log message and `commandFailed` for the request already answered. -/
theorem profile_list_reply_leaves_timer_running :
    hasActive sampleWorker.saddr DCMD.GET_PROFILE_LIST sampleWorker.reqTimerPool = false ∧
      Request.encodes sampleExtern Request.getProfileList = true ∧
      hasValidMessageArgs sampleExtern
        [QVariant.int 8, QVariant.stringList ["a", "b"]] = true ∧
      ∃ s2 : ServiceWorker,
        parseCMD sampleExtern (sampleWorker.sendGetProfileListRequest sampleExtern).1
            [QVariant.int 8, QVariant.stringList ["a", "b"]] =
          some (s2, [Signal.profileListReceived ["a", "b"]]) ∧
        hasActive s2.saddr DCMD.GET_PROFILE_LIST s2.reqTimerPool = true ∧
        (s2.timerExpired sampleExtern 0).2 =
          [Signal.logMessageSent "[127.0.0.1]: request timeout for command: 8",
           Signal.commandFailed] := by
  refine ⟨by decide, by decide, by decide, _, rfl, by decide, by decide⟩

/-- C5: when no timer tagged (current address, write-profile) is active and the
request encodes, `sendWriteProfileRequest(name, packet)` emits nothing, and
`parseCMD` of `[write-profile tag, true]` then emits exactly
`profileWritten(true)` and leaves no active timer tagged (current address,
write-profile). -/
theorem write_profile_round_trip (E : Extern) (s : ServiceWorker) (name : String)
    (packet : ClientPacket) (a0 : QVariant)
    (hfree : hasActive s.saddr DCMD.WRITE_PROFILE s.reqTimerPool = false)
    (henc : (E.packArgs [QVariant.int (E.dcmdInt DCMD.WRITE_PROFILE), QVariant.string name,
      QVariant.clientPacket packet]).isSome = true)
    (htag : a0.toDCMD E = DCMD.WRITE_PROFILE) :
    (s.sendWriteProfileRequest E name packet).2 = [] ∧
      ∃ s2 : ServiceWorker,
        parseCMD E (s.sendWriteProfileRequest E name packet).1 [a0, QVariant.bool true] =
          some (s2, [Signal.profileWritten true]) ∧
        hasActive s2.saddr DCMD.WRITE_PROFILE s2.reqTimerPool = false := by
  have hreq : (Request.writeProfile name packet).encodes E = true := henc
  have hs := send_encoded E s (Request.writeProfile name packet) hreq
  simp only [ServiceWorker.send, Request.cmd] at hs
  obtain ⟨hsig, hpool, haddr, _, _⟩ := hs
  have hv : hasValidMessageArgs E [a0, QVariant.bool true] = true := by
    simp [hasValidMessageArgs, htag]
  refine ⟨hsig, ((s.sendWriteProfileRequest E name packet).1.stopTimerForCMD DCMD.WRITE_PROFILE),
    ?_, ?_⟩
  · simp [parseCMD, hv, htag, dispatch, QVariant.toBool]
  · simp only [stopTimerForCMD, haddr, hpool]
    exact start_then_stop _ _ _ hfree

/-- C5, witness: profile `p1` written from a connected worker with an empty pool. -/
theorem write_profile_round_trip_witness :
    (sampleWorker.sendWriteProfileRequest sampleExtern "p1" { body := [1, 2] }).2 = [] ∧
      ∃ s2 : ServiceWorker,
        parseCMD sampleExtern
            (sampleWorker.sendWriteProfileRequest sampleExtern "p1" { body := [1, 2] }).1
            [QVariant.int 7, QVariant.bool true] =
          some (s2, [Signal.profileWritten true]) ∧
        hasActive s2.saddr DCMD.WRITE_PROFILE s2.reqTimerPool = false :=
  write_profile_round_trip sampleExtern sampleWorker "p1" { body := [1, 2] } (QVariant.int 7)
    (by decide) (by decide) (by decide)

/-! ## Sending (C6, C7) -/

/-- C7: when the encoding of the argument list fails, `sendCMD` returns the
worker unchanged (socket and timer pool included) and emits one log message and
one `commandFailed`; so does `sendImportProfilesRequest` when packing the
profiles fails. -/
theorem encode_failure_changes_nothing (E : Extern) (s : ServiceWorker) (cmd : DCMD)
    (args : List QVariant) (profiles : Profiles) :
    (E.packArgs args = none →
        sendCMD E s cmd args =
          (s, [Signal.logMessageSent
                 (s.setErrorMsg ("Failed to send cmd " ++ toString (E.dcmdInt cmd))),
               Signal.commandFailed])) ∧
      (E.packProfiles profiles = none →
        sendImportProfilesRequest E s profiles =
          (s, [Signal.logMessageSent
                 (s.setErrorMsg "Import profiles: failed to pack profiles data for send"),
               Signal.commandFailed])) := by
  constructor
  · intro h
    simp only [sendCMD, h, failWith]
  · intro h
    simp only [sendImportProfilesRequest, h, failWith]

/-- C7, witness: a codec whose encoders fail. -/
theorem encode_failure_changes_nothing_witness :
    sendCMD failingExtern sampleWorker DCMD.WRITE_PROFILE
        [QVariant.int 7, QVariant.string "p1", QVariant.clientPacket { body := [] }] =
      (sampleWorker,
        [Signal.logMessageSent (sampleWorker.setErrorMsg
           ("Failed to send cmd " ++ toString (failingExtern.dcmdInt DCMD.WRITE_PROFILE))),
         Signal.commandFailed]) ∧
    sendImportProfilesRequest failingExtern sampleWorker [("p1", [1])] =
      (sampleWorker,
        [Signal.logMessageSent
           (sampleWorker.setErrorMsg "Import profiles: failed to pack profiles data for send"),
         Signal.commandFailed]) :=
  ⟨(encode_failure_changes_nothing failingExtern sampleWorker DCMD.WRITE_PROFILE
      [QVariant.int 7, QVariant.string "p1", QVariant.clientPacket { body := [] }]
      [("p1", [1])]).1 rfl,
   (encode_failure_changes_nothing failingExtern sampleWorker DCMD.WRITE_PROFILE
      [QVariant.int 7, QVariant.string "p1", QVariant.clientPacket { body := [] }]
      [("p1", [1])]).2 rfl⟩

/-! ## Timeout and disconnect (C8, C9, C10) -/

/-- C9: after `abortSocket`, and after each of `disconnectFromDaemon`,
`connectToDaemon`, `onDisconnected` and `onErrorOccurred`, whatever the pool was
before: no timer of the pool is active, the pool has its former length and,
slot by slot, its former tags; and the expiry of any slot `i` then changes
nothing and emits nothing. -/
theorem disconnect_stops_every_timer (E : Extern) (s : ServiceWorker) (adr : String)
    (port : Nat) (error : SocketError) (i : Nat) :
    (AllTimersStopped s s.abortSocket ∧ s.abortSocket.timerExpired E i = (s.abortSocket, [])) ∧
      (AllTimersStopped s s.disconnectFromDaemon.1 ∧
        s.disconnectFromDaemon.1.timerExpired E i = (s.disconnectFromDaemon.1, [])) ∧
      (AllTimersStopped s (s.connectToDaemon adr port).1 ∧
        (s.connectToDaemon adr port).1.timerExpired E i = ((s.connectToDaemon adr port).1, [])) ∧
      (AllTimersStopped s (onDisconnected s).1 ∧
        (onDisconnected s).1.timerExpired E i = ((onDisconnected s).1, [])) ∧
      (AllTimersStopped s (onErrorOccurred s error).1 ∧
        (onErrorOccurred s error).1.timerExpired E i = ((onErrorOccurred s error).1, [])) := by
  have h := allTimersStopped_abortSocket s
  have hc : AllTimersStopped s (s.connectToDaemon adr port).1 := h
  rw [disconnectFromDaemon_worker, onDisconnected_worker, onErrorOccurred_worker]
  exact ⟨⟨h, timerExpired_of_stopped E _ i h.1⟩, ⟨h, timerExpired_of_stopped E _ i h.1⟩,
    ⟨hc, timerExpired_of_stopped E _ i hc.1⟩, ⟨h, timerExpired_of_stopped E _ i h.1⟩,
    ⟨h, timerExpired_of_stopped E _ i h.1⟩⟩

/-- C10, counterexample: after connecting to 127.0.0.1:9999, a remote close
leaves the worker's `saddr` and `sport` at 127.0.0.1 and 9999 (the facade is
cleared); an explicit `disconnectFromDaemon` and a transport error leave them so
as well, and the facade's accessors still return 127.0.0.1 and 9999. -/
theorem disconnect_keeps_endpoint :
    (∃ v out, Service.run sampleExtern (Service.initial 0 false)
          (connectSession ++ [Event.sockDisconnected]) = some (v, out) ∧
        v.worker.sock.state = SocketState.UnconnectedState ∧
        v.worker.saddr = "127.0.0.1" ∧ v.worker.sport = 9999 ∧
        v.client.getDaemonAddress = "" ∧ v.client.getDaemonPort = 65535) ∧
      (∃ v out, Service.run sampleExtern (Service.initial 0 false)
          (connectSession ++ [Event.disconnectFromDaemon]) = some (v, out) ∧
        v.worker.sock.state = SocketState.UnconnectedState ∧
        v.worker.saddr = "127.0.0.1" ∧ v.worker.sport = 9999 ∧
        v.client.getDaemonAddress = "127.0.0.1" ∧ v.client.getDaemonPort = 9999) ∧
      (∃ v out, Service.run sampleExtern (Service.initial 0 false)
          (connectSession ++
            [Event.sockErrorOccurred SocketError.RemoteHostClosedError "closed"]) =
          some (v, out) ∧
        v.worker.sock.state = SocketState.UnconnectedState ∧
        v.worker.saddr = "127.0.0.1" ∧ v.worker.sport = 9999 ∧
        v.client.getDaemonAddress = "127.0.0.1" ∧ v.client.getDaemonPort = 9999) := by
  refine ⟨⟨_, _, rfl, ?_⟩, ⟨_, _, rfl, ?_⟩, ⟨_, _, rfl, ?_⟩⟩ <;> decide

/-- C10, amended: in every state of the service, a remote close
(`onDisconnected`) leaves the facade with `getDaemonAddress()` empty and
`getDaemonPort()` equal to 65535; and the worker's `saddr` and `sport` are the
same after a remote close, after `disconnectFromDaemon` and after
`onErrorOccurred` as they were before. -/
theorem remote_close_clears_facade_endpoint (E : Extern) (v : Service) (error : SocketError)
    (text : String) :
    (∃ v2 out, v.step E Event.sockDisconnected = some (v2, out) ∧
        v2.client.getDaemonAddress = "" ∧ v2.client.getDaemonPort = 65535 ∧
        v2.worker.saddr = v.worker.saddr ∧ v2.worker.sport = v.worker.sport) ∧
      (∃ v2 out, v.step E Event.disconnectFromDaemon = some (v2, out) ∧
        v2.worker.saddr = v.worker.saddr ∧ v2.worker.sport = v.worker.sport) ∧
      (∃ v2 out, v.step E (Event.sockErrorOccurred error text) = some (v2, out) ∧
        v2.worker.saddr = v.worker.saddr ∧ v2.worker.sport = v.worker.sport) := by
  refine ⟨?_, ?_, ?_⟩
  · simp only [Service.step, ServiceWorker.step]
    refine ⟨_, _, rfl, ?_⟩
    have hw := onDisconnected_worker
      { v.worker with sock := { v.worker.sock with state := SocketState.UnconnectedState } }
    have hc : ∀ c : ClientService, (c.receiveAll (onDisconnected
        { v.worker with sock :=
            { v.worker.sock with state := SocketState.UnconnectedState } }).2).1 =
        { connected := false, sport := ClientService.resetPort, saddr := "" } := by
      intro c
      unfold onDisconnected
      dsimp only
      split
      · exact receiveAll_log_disconnected c [_]
      · exact receiveAll_log_disconnected c []
    dsimp only
    rw [hc, hw]
    exact ⟨rfl, rfl, (abortSocket_frame _).2.1, (abortSocket_frame _).2.2.1⟩
  · simp only [Service.step, ServiceWorker.step]
    refine ⟨_, _, rfl, ?_⟩
    dsimp only
    rw [disconnectFromDaemon_worker]
    exact ⟨(abortSocket_frame _).2.1, (abortSocket_frame _).2.2.1⟩
  · simp only [Service.step, ServiceWorker.step]
    refine ⟨_, _, rfl, ?_⟩
    dsimp only
    rw [onErrorOccurred_worker]
    exact ⟨(abortSocket_frame _).2.1, (abortSocket_frame _).2.2.1⟩

/-! ## Lemmas on index safety, the pool functions and the read loop -/

theorem parseCMD_eq_none_iff (E : Extern) (s : ServiceWorker) (args : List QVariant) :
    parseCMD E s args = none ↔ readsOutOfRange E args = true := by
  cases args with
  | nil => simp [parseCMD, hasValidMessageArgs, readsOutOfRange]
  | cons a0 rest =>
    cases htag : a0.toDCMD E <;>
      rcases rest with _ | ⟨a1, _ | ⟨a2, rest⟩⟩ <;>
        simp [parseCMD, hasValidMessageArgs, readsOutOfRange, unguarded, htag, dispatch] <;>
        (repeat' split) <;> simp

theorem parseCMD_total (E : Extern) (s : ServiceWorker) (args : List QVariant)
    (h : readsOutOfRange E args = false) : ∃ out, parseCMD E s args = some out := by
  cases hp : parseCMD E s args with
  | none =>
    rw [(parseCMD_eq_none_iff E s args).mp hp] at h
    cases h
  | some out => exact ⟨out, rfl⟩

theorem stop_of_inactive (tm : ClientServiceCmdTimer) (h : tm.isActive = false) :
    tm.stop = tm := by
  cases tm
  simp only [ClientServiceCmdTimer.isActive] at h
  simp [ClientServiceCmdTimer.stop, h]

theorem matches_iff_tag (tm : ClientServiceCmdTimer) (adr : String) (cmd : DCMD) :
    (tm.getAddr ≠ adr ∨ tm.getCMD ≠ cmd) ↔ tm.tag ≠ (adr, cmd) := by
  cases tm
  simp only [ClientServiceCmdTimer.getAddr, ClientServiceCmdTimer.getCMD,
    ClientServiceCmdTimer.tag, ne_eq, Prod.mk.injEq, not_and]
  tauto

theorem stopFirstMatch_first (adr : String) (cmd : DCMD) (pool : List ClientServiceCmdTimer)
    (i : Nat) (tm : ClientServiceCmdTimer) (hi : pool[i]? = some tm)
    (htag : tm.tag = (adr, cmd))
    (hbefore : ∀ j t, j < i → pool[j]? = some t → t.tag ≠ (adr, cmd)) :
    stopFirstMatch adr cmd pool = pool.set i tm.stop := by
  induction pool generalizing i with
  | nil => simp at hi
  | cons a rest ih =>
    cases i with
    | zero =>
      simp only [List.getElem?_cons_zero, Option.some.injEq] at hi
      subst hi
      have hm : ¬ (a.getAddr ≠ adr ∨ a.getCMD ≠ cmd) := by
        rw [matches_iff_tag]
        exact fun hne => hne htag
      simp only [stopFirstMatch, hm, if_false, List.set_cons_zero]
    | succ j =>
      simp only [List.getElem?_cons_succ] at hi
      have hm : a.getAddr ≠ adr ∨ a.getCMD ≠ cmd :=
        (matches_iff_tag a adr cmd).mpr (hbefore 0 a (Nat.succ_pos j) (by simp))
      simp only [stopFirstMatch, hm, if_true, List.set_cons_succ]
      rw [ih j hi]
      intro k t hk hkt
      exact hbefore (k + 1) t (Nat.succ_lt_succ hk) (by simpa using hkt)

theorem stopFirstMatch_no_match (adr : String) (cmd : DCMD)
    (pool : List ClientServiceCmdTimer) (h : ∀ tm ∈ pool, tm.tag ≠ (adr, cmd)) :
    stopFirstMatch adr cmd pool = pool := by
  induction pool with
  | nil => rfl
  | cons a rest ih =>
    have hm : a.getAddr ≠ adr ∨ a.getCMD ≠ cmd :=
      (matches_iff_tag a adr cmd).mpr (h a (List.mem_cons_self _ _))
    simp only [stopFirstMatch, hm, if_true]
    rw [ih (fun tm htm => h tm (List.mem_cons_of_mem _ htm))]

theorem stopFirstMatch_no_active (adr : String) (cmd : DCMD)
    (pool : List ClientServiceCmdTimer) (h : hasActive adr cmd pool = false) :
    stopFirstMatch adr cmd pool = pool := by
  induction pool with
  | nil => rfl
  | cons a rest ih =>
    rw [hasActive_eq_false_iff, activeTags_cons] at h
    by_cases hm : a.getAddr ≠ adr ∨ a.getCMD ≠ cmd
    · simp only [stopFirstMatch, hm, if_true]
      have hrest : hasActive adr cmd rest = false := by
        rw [hasActive_eq_false_iff]
        intro hmem
        apply h
        split
        · exact List.mem_cons_of_mem _ hmem
        · exact hmem
      rw [ih hrest]
    · simp only [stopFirstMatch, hm, if_false]
      have htag : a.tag = (adr, cmd) := by
        by_contra hne
        exact hm ((matches_iff_tag a adr cmd).mpr hne)
      have hin : a.isActive = false := by
        cases ha : a.isActive with
        | false => rfl
        | true =>
          exfalso
          apply h
          simp [ha, htag]
      rw [stop_of_inactive a hin]

theorem stopFirstMatch_other (adr : String) (cmd : DCMD) (pool : List ClientServiceCmdTimer)
    (i : Nat) (tm : ClientServiceCmdTimer) (hi : pool[i]? = some tm)
    (htag : tm.tag ≠ (adr, cmd)) : (stopFirstMatch adr cmd pool)[i]? = some tm := by
  induction pool generalizing i with
  | nil => simp at hi
  | cons a rest ih =>
    by_cases hm : a.getAddr ≠ adr ∨ a.getCMD ≠ cmd
    · simp only [stopFirstMatch, hm, if_true]
      cases i with
      | zero => simpa using hi
      | succ j =>
        simp only [List.getElem?_cons_succ] at hi ⊢
        exact ih j hi
    · simp only [stopFirstMatch, hm, if_false]
      cases i with
      | zero =>
        simp only [List.getElem?_cons_zero, Option.some.injEq] at hi
        subst hi
        exact absurd ((matches_iff_tag a adr cmd).mpr htag) hm
      | succ j => simpa using hi

theorem startPool_first_inactive (adr : String) (cmd : DCMD)
    (pool : List ClientServiceCmdTimer) (i : Nat) (tm : ClientServiceCmdTimer)
    (hi : pool[i]? = some tm) (hin : tm.isActive = false)
    (hbefore : ∀ j, j < i → ∃ t, pool[j]? = some t ∧ t.isActive = true) :
    startPool adr cmd pool = pool.set i (tm.reset adr cmd) := by
  induction pool generalizing i with
  | nil => simp at hi
  | cons a rest ih =>
    cases i with
    | zero =>
      simp only [List.getElem?_cons_zero, Option.some.injEq] at hi
      subst hi
      simp [startPool, hin]
    | succ j =>
      simp only [List.getElem?_cons_succ] at hi
      obtain ⟨t, ht, hact⟩ := hbefore 0 (Nat.succ_pos j)
      simp only [List.getElem?_cons_zero, Option.some.injEq] at ht
      subst ht
      simp only [List.set_cons_succ, startPool, hact, if_true]
      rw [ih j hi]
      intro k hk
      have := hbefore (k + 1) (Nat.succ_lt_succ hk)
      simpa using this

theorem startPool_all_active (adr : String) (cmd : DCMD) (pool : List ClientServiceCmdTimer)
    (h : ∀ tm ∈ pool, tm.isActive = true) :
    startPool adr cmd pool = pool ++ [(ClientServiceCmdTimer.new adr cmd).start] := by
  induction pool with
  | nil => rfl
  | cons a rest ih =>
    simp only [startPool, h a (List.mem_cons_self _ _), if_true, List.cons_append]
    rw [ih (fun tm htm => h tm (List.mem_cons_of_mem _ htm))]

theorem dispatch_withReadBuffer (E : Extern) (s : ServiceWorker) (buf : QByteArray)
    (cmd : DCMD) (args : List QVariant) :
    dispatch E (s.withReadBuffer buf) cmd args =
      (dispatch E s cmd args).map (fun r => (r.1.withReadBuffer buf, r.2)) := by
  cases cmd <;>
    rcases args with _ | ⟨a0, _ | ⟨a1, _ | ⟨a2, rest⟩⟩⟩ <;>
      simp [dispatch, withReadBuffer, stopTimerForCMD, setErrorMsg] <;>
      (repeat' split) <;> simp

theorem parseCMD_withReadBuffer (E : Extern) (s : ServiceWorker) (buf : QByteArray)
    (args : List QVariant) :
    parseCMD E (s.withReadBuffer buf) args =
      (parseCMD E s args).map (fun r => (r.1.withReadBuffer buf, r.2)) := by
  unfold parseCMD
  split
  · rfl
  · cases args with
    | nil => rfl
    | cons a0 rest => exact dispatch_withReadBuffer E s buf _ _

theorem withReadBuffer_twice (s : ServiceWorker) (b1 b2 : QByteArray) :
    (s.withReadBuffer b1).withReadBuffer b2 = s.withReadBuffer b2 := rfl

theorem withReadBuffer_self (s : ServiceWorker) : s.withReadBuffer s.sock.readBuffer = s := rfl

theorem parseAll_withReadBuffer (E : Extern) (msgs : List (List QVariant)) (s : ServiceWorker)
    (buf : QByteArray) :
    parseAll E (s.withReadBuffer buf) msgs =
      (parseAll E s msgs).map (fun r => (r.1.withReadBuffer buf, r.2)) := by
  induction msgs generalizing s with
  | nil => rfl
  | cons m ms ih =>
    simp only [parseAll, parseCMD_withReadBuffer]
    cases hp : parseCMD E s m with
    | none => rfl
    | some out =>
      obtain ⟨s1, sigs⟩ := out
      simp only [Option.map_some']
      rw [ih s1]
      cases parseAll E s1 ms <;> rfl

theorem readLoop_framed (E : Extern) (msgs : List (List QVariant)) (tail : QByteArray)
    (fuel : Nat) (s : ServiceWorker) (hfuel : s.sock.readBuffer.length ≤ fuel)
    (h : Framed E s.sock.readBuffer msgs tail) :
    readLoop E fuel s = (parseAll E s msgs).map (fun r => (r.1.withReadBuffer tail, r.2)) := by
  induction msgs generalizing fuel s with
  | nil =>
    obtain ⟨hbuf, htail⟩ := h
    simp only [parseAll, Option.map_some']
    rw [← hbuf, withReadBuffer_self]
    cases fuel with
    | zero => rfl
    | succ n =>
      unfold readLoop
      rcases htail with ht | ht
      · rw [hbuf, ht]
      · cases hb : s.sock.readBuffer with
        | nil => rfl
        | cons b bs =>
          rw [← hbuf, hb] at ht
          simp only [ht]
  | cons m ms ih =>
    obtain ⟨b, bs, k, hbuf, hread, hne, hrest⟩ := h
    cases fuel with
    | zero => rw [hbuf] at hfuel; simp at hfuel
    | succ n =>
      have hn : ((s.withReadBuffer (bs.drop k)).sock.readBuffer).length ≤ n := by
        rw [hbuf] at hfuel
        simp only [withReadBuffer, List.length_drop, List.length_cons] at hfuel ⊢
        omega
      have hempty : m.isEmpty = false := by
        cases m with
        | nil => exact absurd rfl hne
        | cons _ _ => rfl
      unfold readLoop
      simp only [hbuf, hread, hempty]
      have hp := parseCMD_withReadBuffer E s (bs.drop k) m
      simp only [withReadBuffer] at hp
      simp only [Bool.false_eq_true, if_false, hp, parseAll]
      cases hq : parseCMD E s m with
      | none => rfl
      | some out =>
        obtain ⟨s1, sigs⟩ := out
        simp only [Option.map_some']
        have hih := ih n (s1.withReadBuffer (bs.drop k)) (by
          simp only [withReadBuffer] at hn ⊢
          exact hn) hrest
        simp only [withReadBuffer] at hih
        rw [hih]
        have hpa := parseAll_withReadBuffer E ms s1 (bs.drop k)
        simp only [withReadBuffer] at hpa
        rw [hpa]
        cases parseAll E s1 ms <;> rfl

theorem stopped_sendable (pool pool2 : List ClientServiceCmdTimer) (h : Stopped pool pool2)
    (hs : ∀ tm ∈ pool, tm.dcmd ∈ sendable) : ∀ tm ∈ pool2, tm.dcmd ∈ sendable := by
  induction h with
  | nil => exact hs
  | @cons a b l1 l2 hab _ ih =>
    intro tm htm
    have ha := hs a (List.mem_cons_self _ _)
    rcases List.mem_cons.mp htm with rfl | hmem
    · rcases hab with rfl | rfl
      · exact ha
      · exact ha
    · exact ih (fun t ht => hs t (List.mem_cons_of_mem _ ht)) tm hmem

theorem startPool_sendable (adr : String) (cmd : DCMD) (pool : List ClientServiceCmdTimer)
    (hc : cmd ∈ sendable) (hs : ∀ tm ∈ pool, tm.dcmd ∈ sendable) :
    ∀ tm ∈ startPool adr cmd pool, tm.dcmd ∈ sendable := by
  induction pool with
  | nil =>
    intro tm htm
    simp only [startPool, List.mem_singleton] at htm
    subst htm
    exact hc
  | cons a rest ih =>
    have ha := hs a (List.mem_cons_self _ _)
    have hrest : ∀ tm ∈ rest, tm.dcmd ∈ sendable := fun t ht => hs t (List.mem_cons_of_mem _ ht)
    intro tm htm
    by_cases h : a.isActive = true
    · simp only [startPool, h, if_true] at htm
      rcases List.mem_cons.mp htm with rfl | hmem
      · exact ha
      · exact ih hrest tm hmem
    · simp only [startPool, h] at htm
      rcases List.mem_cons.mp htm with rfl | hmem
      · exact hc
      · exact hrest tm hmem

theorem request_cmd_sendable (r : Request) : r.cmd ∈ sendable := by
  cases r <;> simp [Request.cmd, sendable]

theorem reachable_sendable (E : Extern) (s : ServiceWorker) (h : ServiceWorker.Reachable E s) :
    ∀ tm ∈ s.reqTimerPool, tm.dcmd ∈ sendable := by
  induction h with
  | init sport0 staysOpen =>
    intro tm htm
    simp [ServiceWorker.initial] at htm
  | step s ev out _ hstep ih =>
    by_cases hev : ∀ r, ev = Event.send r → r.encodes E = false
    · exact stopped_sendable _ _ (step_stopped E s ev out hstep hev) ih
    · push_neg at hev
      obtain ⟨r, rfl, hr⟩ := hev
      simp only [ServiceWorker.step, Option.some.injEq] at hstep
      subst hstep
      have hr2 : r.encodes E = true := by simpa using hr
      rw [(send_encoded E s r hr2).2.1]
      exact startPool_sendable _ _ _ (request_cmd_sendable r) ih

theorem sendable_isNamed (cmd : DCMD) (h : cmd ∈ sendable) : cmd.isNamed = true := by
  cases cmd <;> simp [sendable] at h <;> rfl

theorem dispatch_notifications (E : Extern) (s : ServiceWorker) (cmd : DCMD)
    (args : List QVariant) (out : Outcome) (hc : cmd ≠ DCMD.DAEMON_CMD_FAIL)
    (h : dispatch E s cmd args = some out) :
    ∃ n, notifications out.2 = [n] ∧ (n = Signal.commandFailed ∨ n.isTyped = true) := by
  cases cmd <;> simp only [ne_eq, not_true_eq_false, reduceCtorEq, not_false_eq_true] at hc <;>
    simp only [dispatch, bind, pure, Option.bind_eq_some] at h
  case other code =>
    simp only [Option.some.injEq] at h
    subst h
    exact ⟨_, rfl, Or.inl rfl⟩
  all_goals
    obtain ⟨a1, _, h⟩ := h
    repeat' split at h
    all_goals
      simp only [Option.bind_eq_some, Option.some.injEq] at h
      first
      | (obtain ⟨a2, _, h⟩ := h
         subst h
         first | exact ⟨_, rfl, Or.inl rfl⟩ | exact ⟨_, rfl, Or.inr rfl⟩)
      | (subst h
         first | exact ⟨_, rfl, Or.inl rfl⟩ | exact ⟨_, rfl, Or.inr rfl⟩)

/-! ## The facade's connection flag (C11) -/

theorem receiveAll_log_error (c : ClientService) (msgs : List String) :
    (c.receiveAll ((msgs.map Signal.logMessageSent) ++ [Signal.serviceError])).1 =
      { c with connected := false } := by
  induction msgs generalizing c with
  | nil => rfl
  | cons m rest ih =>
    simp only [List.map_cons, List.cons_append, ClientService.receiveAll, ClientService.receive]
    exact ih c

theorem receiveAll_logs (c : ClientService) (msgs : List String) :
    (c.receiveAll (msgs.map Signal.logMessageSent)).1 = c := by
  induction msgs generalizing c with
  | nil => rfl
  | cons m rest ih =>
    simp only [List.map_cons, ClientService.receiveAll, ClientService.receive]
    exact ih c

/-- What the three ways into Disconnected do to the facade, in every state of
the service: a remote close and a transport error leave `isConnected()` false;
an explicit `disconnectFromDaemon` leaves the facade exactly as it was. In all
three the worker's socket ends up unconnected. -/
theorem facade_after_disconnect (E : Extern) (v : Service) (error : SocketError)
    (text : String) :
    (∃ v2 out, v.step E Event.sockDisconnected = some (v2, out) ∧
        v2.worker.sock.state = SocketState.UnconnectedState ∧
        v2.client.isConnected = false) ∧
      (∃ v2 out, v.step E (Event.sockErrorOccurred error text) = some (v2, out) ∧
        v2.worker.sock.state = SocketState.UnconnectedState ∧
        v2.client.isConnected = false) ∧
      (∃ v2 out, v.step E Event.disconnectFromDaemon = some (v2, out) ∧
        v2.worker.sock.state = SocketState.UnconnectedState ∧
        v2.client = v.client) := by
  refine ⟨?_, ?_, ?_⟩
  · simp only [Service.step, ServiceWorker.step]
    refine ⟨_, _, rfl, ?_, ?_⟩
    · dsimp only
      rw [onDisconnected_worker]
      exact (abortSocket_frame _).2.2.2
    · dsimp only
      unfold onDisconnected
      dsimp only
      split
      · exact congrArg ClientService.connected (receiveAll_log_disconnected v.client [_])
      · exact congrArg ClientService.connected (receiveAll_log_disconnected v.client [])
  · simp only [Service.step, ServiceWorker.step]
    refine ⟨_, _, rfl, ?_, ?_⟩
    · dsimp only
      rw [onErrorOccurred_worker]
      exact (abortSocket_frame _).2.2.2
    · dsimp only
      unfold onErrorOccurred
      dsimp only
      split
      · exact congrArg ClientService.connected (receiveAll_log_error v.client [_, _])
      · exact congrArg ClientService.connected (receiveAll_log_error v.client [_])
  · simp only [Service.step, ServiceWorker.step]
    refine ⟨_, _, rfl, ?_, ?_⟩
    · dsimp only
      rw [disconnectFromDaemon_worker]
      exact (abortSocket_frame _).2.2.2
    · dsimp only
      unfold disconnectFromDaemon
      dsimp only
      split
      · exact receiveAll_logs v.client [_]
      · exact receiveAll_logs v.client []

/-- C11, the code at a failing input: after connecting to 127.0.0.1:9999 the
facade reports `isConnected() = true`; once the worker has processed
`disconnectFromDaemon` its socket is unconnected, no signal has reached the
facade, and `isConnected()` is still true. From the same state a remote close
and a transport error each leave `isConnected()` false. -/
theorem explicit_disconnect_leaves_facade_connected :
    ∃ v0 out0, Service.run sampleExtern (Service.initial 0 false) connectSession =
        some (v0, out0) ∧
      v0.client.isConnected = true ∧
      (∃ v, v0.step sampleExtern Event.disconnectFromDaemon = some (v, []) ∧
        v.worker.sock.state = SocketState.UnconnectedState ∧
        v.client.isConnected = true) ∧
      (∃ v out, v0.step sampleExtern Event.sockDisconnected = some (v, out) ∧
        v.worker.sock.state = SocketState.UnconnectedState ∧
        v.client.isConnected = false) ∧
      (∃ v out, v0.step sampleExtern
          (Event.sockErrorOccurred SocketError.RemoteHostClosedError "closed") = some (v, out) ∧
        v.worker.sock.state = SocketState.UnconnectedState ∧
        v.client.isConnected = false) := by
  refine ⟨_, _, rfl, by decide, ⟨_, rfl, by decide, by decide⟩, ⟨_, _, rfl, by decide, by decide⟩,
    ⟨_, _, rfl, by decide, by decide⟩⟩

/-! ## Notifications of one inbound message (C12 to C15) -/

/-- C12, counterexample: `parseCMD` of the valid message `[command-failed,
write-profile]` returns and emits no signal at all, so the number of
notifications is zero; and `parseCMD` of the invalid message `[write-profile]`
emits `serviceError`, which is neither `commandFailed` nor a typed
notification. -/
theorem command_failed_message_raises_nothing :
    hasValidMessageArgs sampleExtern [QVariant.int 0, QVariant.int 7] = true ∧
      parseCMD sampleExtern sampleWorker [QVariant.int 0, QVariant.int 7] =
        some (sampleWorker, []) ∧
      (∃ out : Outcome,
        parseCMD sampleExtern sampleWorker [QVariant.int 7] = some out ∧
        notifications out.2 = [Signal.serviceError] ∧
        Signal.serviceError ≠ Signal.commandFailed ∧
        Signal.serviceError.isTyped = false) := by
  refine ⟨by decide, by decide, _, rfl, by decide, by decide, by decide⟩

/-- C12, amended: a single `parseCMD` call returns unless the message makes it
read out of range, and when it returns it has raised at most one notification
other than log messages: `serviceError` alone for a message that fails
validation; none, and no log message either, for a valid message tagged generic
command-failed; and for every other valid message exactly one, which is
`commandFailed` or a typed notification. -/
theorem parseCMD_notifications (E : Extern) (s : ServiceWorker) (args : List QVariant) :
    (readsOutOfRange E args = false → ∃ out, parseCMD E s args = some out) ∧
      ∀ out, parseCMD E s args = some out →
        (hasValidMessageArgs E args = false → notifications out.2 = [Signal.serviceError]) ∧
        (∀ a0, hasValidMessageArgs E args = true → args[0]? = some a0 →
          (a0.toDCMD E = DCMD.DAEMON_CMD_FAIL → out.2 = []) ∧
          (a0.toDCMD E ≠ DCMD.DAEMON_CMD_FAIL →
            ∃ n, notifications out.2 = [n] ∧
              (n = Signal.commandFailed ∨ n.isTyped = true))) := by
  refine ⟨parseCMD_total E s args, ?_⟩
  intro out hout
  constructor
  · intro hv
    rw [invalid_message_outcome E s args hv, Option.some.injEq] at hout
    subst hout
    rfl
  · intro a0 hv h0
    cases args with
    | nil => simp at h0
    | cons b rest =>
      simp only [List.getElem?_cons_zero, Option.some.injEq] at h0
      subst h0
      simp only [parseCMD, hv, Bool.not_true, Bool.false_eq_true, if_false] at hout
      constructor
      · intro htag
        rw [htag] at hout
        cases h1 : (b :: rest)[1]? with
        | none => simp [dispatch, h1] at hout
        | some a1 =>
          simp only [dispatch, bind, pure, h1, Option.some_bind, Option.some.injEq] at hout
          subst hout
          rfl
      · intro htag
        exact dispatch_notifications E s _ _ out htag hout

/-- C12, witness of the amended claim: the reply `[write-profile, true]` is
handled, and its one notification is the typed `profileWritten(true)`. -/
theorem parseCMD_notifications_witness :
    (∃ out, parseCMD sampleExtern sampleWorker [QVariant.int 7, QVariant.bool true] =
        some out) ∧
      ∃ n, notifications (sampleWorker, [Signal.profileWritten true]).2 = [n] ∧
        (n = Signal.commandFailed ∨ n.isTyped = true) :=
  ⟨(parseCMD_notifications sampleExtern sampleWorker
      [QVariant.int 7, QVariant.bool true]).1 (by decide),
   (((parseCMD_notifications sampleExtern sampleWorker
      [QVariant.int 7, QVariant.bool true]).2 (sampleWorker, [Signal.profileWritten true])
      (by decide)).2 (QVariant.int 7) (by decide) rfl).2 (by decide)⟩

/-- C13: for a message tagged get-device-info, or get-daemon-packet, that has a
value 1, `parseCMD` returns the worker with the timer of the message's own tag
stopped, in each of the three cases, and the signals are: a log message and
`commandFailed` if value 1 does not convert to the packet; a log message (the
text of the packet error) and `commandFailed` if the packet's `error` is not
`NoError`; otherwise the received notification with exactly that packet. The
timer stopped: when `tm` in slot `i` is the first timer tagged (current address,
own tag), the worker returned is the old one with slot `i` holding `tm` stopped,
whatever the three cases; and every timer with another tag is as it was. -/
theorem packet_reply_outcomes (E : Extern) (s : ServiceWorker) (args : List QVariant)
    (a0 a1 : QVariant) (h0 : args[0]? = some a0) (h1 : args[1]? = some a1) :
    (a0.toDCMD E = DCMD.GET_DEVICE_INFO_PACKET →
        parseCMD E s args =
          some (s.stopTimerForCMD DCMD.GET_DEVICE_INFO_PACKET,
            match a1.toDeviceInfoPacket E with
            | none =>
              [Signal.logMessageSent (s.setErrorMsg "Unable to unpack device info packet"),
               Signal.commandFailed]
            | some packet =>
              if packet.error ≠ PacketError.NoError then
                [Signal.logMessageSent (E.getPacketErrorStr packet.error), Signal.commandFailed]
              else
                [Signal.deviceInfoPacketReceived packet])) ∧
      (a0.toDCMD E = DCMD.GET_DAEMON_PACKET →
        parseCMD E s args =
          some (s.stopTimerForCMD DCMD.GET_DAEMON_PACKET,
            match a1.toDaemonPacket E with
            | none =>
              [Signal.logMessageSent (s.setErrorMsg "Unable to unpack daemon packet"),
               Signal.commandFailed]
            | some packet =>
              if packet.error ≠ PacketError.NoError then
                [Signal.logMessageSent (E.getPacketErrorStr packet.error), Signal.commandFailed]
              else
                [Signal.daemonPacketReceived packet])) ∧
      (a0.toDCMD E = DCMD.GET_DEVICE_INFO_PACKET ∨ a0.toDCMD E = DCMD.GET_DAEMON_PACKET →
        (∀ (i : Nat) (tm : ClientServiceCmdTimer), s.reqTimerPool[i]? = some tm →
          tm.tag = (s.saddr, a0.toDCMD E) →
          (∀ (j : Nat) (u : ClientServiceCmdTimer), j < i → s.reqTimerPool[j]? = some u →
            u.tag ≠ (s.saddr, a0.toDCMD E)) →
          ∃ sigs, parseCMD E s args =
            some ({ s with reqTimerPool := s.reqTimerPool.set i tm.stop }, sigs)) ∧
        (∀ (i : Nat) (tm : ClientServiceCmdTimer) (out : Outcome),
          s.reqTimerPool[i]? = some tm → tm.tag ≠ (s.saddr, a0.toDCMD E) →
          parseCMD E s args = some out → out.1.reqTimerPool[i]? = some tm)) := by
  cases args with
  | nil => simp at h0
  | cons b rest =>
    simp only [List.getElem?_cons_zero, Option.some.injEq] at h0
    subst h0
    have hdev : b.toDCMD E = DCMD.GET_DEVICE_INFO_PACKET →
        parseCMD E s (b :: rest) =
          some (s.stopTimerForCMD DCMD.GET_DEVICE_INFO_PACKET,
            match a1.toDeviceInfoPacket E with
            | none =>
              [Signal.logMessageSent (s.setErrorMsg "Unable to unpack device info packet"),
               Signal.commandFailed]
            | some packet =>
              if packet.error ≠ PacketError.NoError then
                [Signal.logMessageSent (E.getPacketErrorStr packet.error), Signal.commandFailed]
              else
                [Signal.deviceInfoPacketReceived packet]) := by
      intro htag
      have hv : hasValidMessageArgs E (b :: rest) = true := by
        simp [hasValidMessageArgs, htag]
      cases hq : a1.toDeviceInfoPacket E with
      | none => simp [parseCMD, hv, htag, dispatch, h1, hq, failWith, setErrorMsg, stopTimerForCMD]
      | some packet =>
        by_cases he : packet.error = PacketError.NoError <;>
          simp [parseCMD, hv, htag, dispatch, h1, hq, he, failWith]
    have hdae : b.toDCMD E = DCMD.GET_DAEMON_PACKET →
        parseCMD E s (b :: rest) =
          some (s.stopTimerForCMD DCMD.GET_DAEMON_PACKET,
            match a1.toDaemonPacket E with
            | none =>
              [Signal.logMessageSent (s.setErrorMsg "Unable to unpack daemon packet"),
               Signal.commandFailed]
            | some packet =>
              if packet.error ≠ PacketError.NoError then
                [Signal.logMessageSent (E.getPacketErrorStr packet.error), Signal.commandFailed]
              else
                [Signal.daemonPacketReceived packet]) := by
      intro htag
      have hv : hasValidMessageArgs E (b :: rest) = true := by
        simp [hasValidMessageArgs, htag]
      cases hq : a1.toDaemonPacket E with
      | none => simp [parseCMD, hv, htag, dispatch, h1, hq, failWith, setErrorMsg, stopTimerForCMD]
      | some packet =>
        by_cases he : packet.error = PacketError.NoError <;>
          simp [parseCMD, hv, htag, dispatch, h1, hq, he, failWith]
    have hown : b.toDCMD E = DCMD.GET_DEVICE_INFO_PACKET ∨ b.toDCMD E = DCMD.GET_DAEMON_PACKET →
        ∃ sigs, parseCMD E s (b :: rest) = some (s.stopTimerForCMD (b.toDCMD E), sigs) := by
      rintro (htag | htag)
      · exact ⟨_, by rw [hdev htag, htag]⟩
      · exact ⟨_, by rw [hdae htag, htag]⟩
    refine ⟨hdev, hdae, ?_⟩
    intro htag
    obtain ⟨sigs, hsigs⟩ := hown htag
    constructor
    · intro i tm hi hmatch hbefore
      refine ⟨sigs, ?_⟩
      rw [hsigs]
      simp only [stopTimerForCMD,
        stopFirstMatch_first s.saddr _ s.reqTimerPool i tm hi hmatch hbefore]
    · intro i tm out hi hne hout
      rw [hsigs, Option.some.injEq] at hout
      subst hout
      exact stopFirstMatch_other s.saddr _ s.reqTimerPool i tm hi hne

/-- C13, witness: three replies met by workers that wait for them. A
get-device-info reply with a packet without error stops the one running timer
and is forwarded; a get-daemon-packet reply whose packet reports an error, and
one whose value 1 is not a packet, each stop the running get-daemon-packet timer
in slot 1, leave the write-profile timer in slot 0 running, and raise a log
message with `commandFailed`. -/
theorem packet_reply_outcomes_witness :
    parseCMD sampleExtern (waitingFor DCMD.GET_DEVICE_INFO_PACKET)
          [QVariant.int 2,
           QVariant.deviceInfoPacket { error := PacketError.NoError, body := [1] }] =
        some ({ sampleWorker with
                reqTimerPool := [sampleTimer "127.0.0.1" DCMD.GET_DEVICE_INFO_PACKET false] },
          [Signal.deviceInfoPacketReceived { error := PacketError.NoError, body := [1] }]) ∧
      parseCMD sampleExtern (waitingForTwo DCMD.WRITE_PROFILE DCMD.GET_DAEMON_PACKET)
          [QVariant.int 3,
           QVariant.daemonPacket { error := PacketError.failure 4, body := [1] }] =
        some ({ sampleWorker with
                reqTimerPool := [sampleTimer "127.0.0.1" DCMD.WRITE_PROFILE true,
                                 sampleTimer "127.0.0.1" DCMD.GET_DAEMON_PACKET false] },
          [Signal.logMessageSent "packet error", Signal.commandFailed]) ∧
      parseCMD sampleExtern (waitingForTwo DCMD.WRITE_PROFILE DCMD.GET_DAEMON_PACKET)
          [QVariant.int 3, QVariant.bool true] =
        some ({ sampleWorker with
                reqTimerPool := [sampleTimer "127.0.0.1" DCMD.WRITE_PROFILE true,
                                 sampleTimer "127.0.0.1" DCMD.GET_DAEMON_PACKET false] },
          [Signal.logMessageSent "[127.0.0.1]: Unable to unpack daemon packet",
           Signal.commandFailed]) ∧
      (∃ sigs, parseCMD sampleExtern (waitingForTwo DCMD.WRITE_PROFILE DCMD.GET_DAEMON_PACKET)
          [QVariant.int 3, QVariant.bool true] =
        some ({ waitingForTwo DCMD.WRITE_PROFILE DCMD.GET_DAEMON_PACKET with
                reqTimerPool :=
                  (waitingForTwo DCMD.WRITE_PROFILE DCMD.GET_DAEMON_PACKET).reqTimerPool.set 1
                    (sampleTimer "127.0.0.1" DCMD.GET_DAEMON_PACKET true).stop }, sigs)) ∧
      (∀ out : Outcome,
        parseCMD sampleExtern (waitingForTwo DCMD.WRITE_PROFILE DCMD.GET_DAEMON_PACKET)
            [QVariant.int 3, QVariant.bool true] = some out →
          out.1.reqTimerPool[0]? = some (sampleTimer "127.0.0.1" DCMD.WRITE_PROFILE true)) :=
  have hdev := packet_reply_outcomes sampleExtern (waitingFor DCMD.GET_DEVICE_INFO_PACKET)
    [QVariant.int 2, QVariant.deviceInfoPacket { error := PacketError.NoError, body := [1] }]
    (QVariant.int 2)
    (QVariant.deviceInfoPacket { error := PacketError.NoError, body := [1] }) rfl rfl
  have hfail := packet_reply_outcomes sampleExtern
    (waitingForTwo DCMD.WRITE_PROFILE DCMD.GET_DAEMON_PACKET)
    [QVariant.int 3, QVariant.daemonPacket { error := PacketError.failure 4, body := [1] }]
    (QVariant.int 3)
    (QVariant.daemonPacket { error := PacketError.failure 4, body := [1] }) rfl rfl
  have hbad := packet_reply_outcomes sampleExtern
    (waitingForTwo DCMD.WRITE_PROFILE DCMD.GET_DAEMON_PACKET)
    [QVariant.int 3, QVariant.bool true] (QVariant.int 3) (QVariant.bool true) rfl rfl
  ⟨(hdev.1 (by decide)).trans (by decide),
   (hfail.2.1 (by decide)).trans (by decide),
   (hbad.2.1 (by decide)).trans (by decide),
   (hbad.2.2 (by decide)).1 1 (sampleTimer "127.0.0.1" DCMD.GET_DAEMON_PACKET true) rfl
     (by decide) (by
       intro j u hj hu
       have hj0 : j = 0 := by omega
       subst hj0
       simp only [waitingForTwo, List.getElem?_cons_zero, Option.some.injEq] at hu
       subst hu
       decide),
   fun out hout =>
     (hbad.2.2 (by decide)).2 0 (sampleTimer "127.0.0.1" DCMD.WRITE_PROFILE true) out rfl
       (by decide) hout⟩

/-- C14: for a message tagged generic command-failed whose value 1 has the tag
`t`, `parseCMD` returns the worker after `stopTimerForCMD(t)` and emits nothing:
no log message and no notification. In the pool, the first timer tagged
(current address, `t`) is stopped, and every timer with another tag, a timer
tagged command-failed included when `t` is another tag, is as it was. -/
theorem command_failed_message_stops_original_timer (E : Extern) (s : ServiceWorker)
    (args : List QVariant) (a0 a1 : QVariant) (t : DCMD)
    (h0 : args[0]? = some a0) (h1 : args[1]? = some a1)
    (htag : a0.toDCMD E = DCMD.DAEMON_CMD_FAIL) (ht : a1.toDCMD E = t) :
    parseCMD E s args = some (s.stopTimerForCMD t, []) ∧
      (∀ (i : Nat) (tm : ClientServiceCmdTimer), s.reqTimerPool[i]? = some tm → tm.tag = (s.saddr, t) →
        (∀ (j : Nat) (u : ClientServiceCmdTimer), j < i → s.reqTimerPool[j]? = some u → u.tag ≠ (s.saddr, t)) →
        (s.stopTimerForCMD t).reqTimerPool = s.reqTimerPool.set i tm.stop) ∧
      (∀ (i : Nat) (tm : ClientServiceCmdTimer), s.reqTimerPool[i]? = some tm → tm.tag ≠ (s.saddr, t) →
        (s.stopTimerForCMD t).reqTimerPool[i]? = some tm) := by
  refine ⟨?_, ?_, ?_⟩
  · cases args with
    | nil => simp at h0
    | cons b rest =>
      simp only [List.getElem?_cons_zero, Option.some.injEq] at h0
      subst h0
      have hv : hasValidMessageArgs E (b :: rest) = true := by
        simp [hasValidMessageArgs, htag]
      simp [parseCMD, hv, htag, dispatch, h1, ht]
  · intro i tm hi hmatch hbefore
    exact stopFirstMatch_first s.saddr t s.reqTimerPool i tm hi hmatch hbefore
  · intro i tm hi hne
    exact stopFirstMatch_other s.saddr t s.reqTimerPool i tm hi hne

/-- C14, witness: the daemon reports that the get-daemon-packet request of
`waitingWorker` failed. -/
theorem command_failed_message_stops_original_timer_witness :
    parseCMD sampleExtern waitingWorker [QVariant.int 0, QVariant.int 3] =
        some (waitingWorker.stopTimerForCMD DCMD.GET_DAEMON_PACKET, []) ∧
      (∀ (i : Nat) (tm : ClientServiceCmdTimer), waitingWorker.reqTimerPool[i]? = some tm →
        tm.tag = (waitingWorker.saddr, DCMD.GET_DAEMON_PACKET) →
        (∀ (j : Nat) (u : ClientServiceCmdTimer), j < i → waitingWorker.reqTimerPool[j]? = some u →
          u.tag ≠ (waitingWorker.saddr, DCMD.GET_DAEMON_PACKET)) →
        (waitingWorker.stopTimerForCMD DCMD.GET_DAEMON_PACKET).reqTimerPool =
          waitingWorker.reqTimerPool.set i tm.stop) ∧
      (∀ (i : Nat) (tm : ClientServiceCmdTimer), waitingWorker.reqTimerPool[i]? = some tm →
        tm.tag ≠ (waitingWorker.saddr, DCMD.GET_DAEMON_PACKET) →
        (waitingWorker.stopTimerForCMD DCMD.GET_DAEMON_PACKET).reqTimerPool[i]? = some tm) :=
  command_failed_message_stops_original_timer sampleExtern waitingWorker
    [QVariant.int 0, QVariant.int 3] (QVariant.int 0) (QVariant.int 3) DCMD.GET_DAEMON_PACKET
    rfl rfl rfl rfl

/-- C15: for a valid message tagged battery-status-changed, wake-from-sleep,
apply-timer-tick or get-profile-list, `parseCMD` returns the worker exactly as
it was (the timer pool included), whatever the decoding gives; for a valid
message tagged apply-client-settings or apply-profile it returns the worker
after `stopTimerForCMD` of the message's own tag, whatever the decoding gives.
The timer stopped: when `tm` in slot `i` is the first timer tagged (current
address, own tag), the worker returned is the old one with slot `i` holding `tm`
stopped; and every timer with another tag is as it was. -/
theorem push_messages_leave_pool (E : Extern) (s : ServiceWorker) (args : List QVariant)
    (a0 : QVariant) (h0 : args[0]? = some a0) (hv : hasValidMessageArgs E args = true) :
    (a0.toDCMD E ∈ [DCMD.BATTERY_STATUS_CHANGED, DCMD.SYS_WAKE_FROM_SLEEP, DCMD.APPLY_TIMER,
          DCMD.GET_PROFILE_LIST] →
        ∃ sigs, parseCMD E s args = some (s, sigs)) ∧
      (a0.toDCMD E ∈ [DCMD.APPLY_CLIENT_SETTINGS, DCMD.APPLY_PROFILE] →
        ∃ sigs, parseCMD E s args = some (s.stopTimerForCMD (a0.toDCMD E), sigs)) ∧
      (a0.toDCMD E ∈ [DCMD.APPLY_CLIENT_SETTINGS, DCMD.APPLY_PROFILE] →
        (∀ (i : Nat) (tm : ClientServiceCmdTimer), s.reqTimerPool[i]? = some tm →
          tm.tag = (s.saddr, a0.toDCMD E) →
          (∀ (j : Nat) (u : ClientServiceCmdTimer), j < i → s.reqTimerPool[j]? = some u →
            u.tag ≠ (s.saddr, a0.toDCMD E)) →
          ∃ sigs, parseCMD E s args =
            some ({ s with reqTimerPool := s.reqTimerPool.set i tm.stop }, sigs)) ∧
        (∀ (i : Nat) (tm : ClientServiceCmdTimer) (out : Outcome),
          s.reqTimerPool[i]? = some tm → tm.tag ≠ (s.saddr, a0.toDCMD E) →
          parseCMD E s args = some out → out.1.reqTimerPool[i]? = some tm)) := by
  cases args with
  | nil => simp at h0
  | cons b rest =>
    simp only [List.getElem?_cons_zero, Option.some.injEq] at h0
    subst h0
    have hown : b.toDCMD E ∈ [DCMD.APPLY_CLIENT_SETTINGS, DCMD.APPLY_PROFILE] →
        ∃ sigs, parseCMD E s (b :: rest) = some (s.stopTimerForCMD (b.toDCMD E), sigs) := by
      intro hmem
      simp only [List.mem_cons, List.mem_singleton, List.not_mem_nil, or_false] at hmem
      rcases hmem with htag | htag <;>
        rcases rest with _ | ⟨a1, _ | ⟨a2, rest⟩⟩ <;>
          simp [hasValidMessageArgs, htag] at hv <;>
          simp [parseCMD, hasValidMessageArgs, htag, dispatch] <;>
          (repeat' split) <;> (try simp) <;> (try omega)
    refine ⟨?_, hown, ?_⟩
    · intro hmem
      simp only [List.mem_cons, List.mem_singleton, List.not_mem_nil, or_false] at hmem
      rcases hmem with htag | htag | htag | htag <;>
        rcases rest with _ | ⟨a1, _ | ⟨a2, rest⟩⟩ <;>
          simp [hasValidMessageArgs, htag] at hv <;>
          simp [parseCMD, hasValidMessageArgs, htag, dispatch] <;>
          (repeat' split) <;> simp
    · intro hmem
      obtain ⟨sigs, hsigs⟩ := hown hmem
      constructor
      · intro i tm hi hmatch hbefore
        refine ⟨sigs, ?_⟩
        rw [hsigs]
        simp only [stopTimerForCMD,
          stopFirstMatch_first s.saddr _ s.reqTimerPool i tm hi hmatch hbefore]
      · intro i tm out hi hne hout
        rw [hsigs, Option.some.injEq] at hout
        subst hout
        exact stopFirstMatch_other s.saddr _ s.reqTimerPool i tm hi hne

/-- C15, witness: a wake-from-sleep push met by a worker that waits for a
get-daemon-packet reply leaves the running timer running; an
apply-client-settings reply met by a worker that waits for a write-profile reply
and for this one stops the running apply-client-settings timer in slot 1 and
leaves the write-profile timer in slot 0 running. -/
theorem push_messages_leave_pool_witness :
    (∃ sigs, parseCMD sampleExtern waitingWorker
        [QVariant.int 15, QVariant.byteArray [1]] = some (waitingWorker, sigs)) ∧
      waitingWorker.reqTimerPool = [sampleTimer "127.0.0.1" DCMD.GET_DAEMON_PACKET true] ∧
      (∃ sigs, parseCMD sampleExtern
          (waitingForTwo DCMD.WRITE_PROFILE DCMD.APPLY_CLIENT_SETTINGS)
          [QVariant.int 5, QVariant.byteArray [1]] =
        some ((waitingForTwo DCMD.WRITE_PROFILE DCMD.APPLY_CLIENT_SETTINGS).stopTimerForCMD
            (QVariant.toDCMD sampleExtern (QVariant.int 5)), sigs)) ∧
      (∃ sigs, parseCMD sampleExtern
          (waitingForTwo DCMD.WRITE_PROFILE DCMD.APPLY_CLIENT_SETTINGS)
          [QVariant.int 5, QVariant.byteArray [1]] =
        some ({ sampleWorker with
                reqTimerPool := [sampleTimer "127.0.0.1" DCMD.WRITE_PROFILE true,
                                 sampleTimer "127.0.0.1" DCMD.APPLY_CLIENT_SETTINGS false] },
          sigs)) ∧
      (∀ out : Outcome,
        parseCMD sampleExtern (waitingForTwo DCMD.WRITE_PROFILE DCMD.APPLY_CLIENT_SETTINGS)
            [QVariant.int 5, QVariant.byteArray [1]] = some out →
          out.1.reqTimerPool[0]? = some (sampleTimer "127.0.0.1" DCMD.WRITE_PROFILE true)) :=
  have hpush := push_messages_leave_pool sampleExtern waitingWorker
    [QVariant.int 15, QVariant.byteArray [1]] (QVariant.int 15) rfl (by decide)
  have hrep := push_messages_leave_pool sampleExtern
    (waitingForTwo DCMD.WRITE_PROFILE DCMD.APPLY_CLIENT_SETTINGS)
    [QVariant.int 5, QVariant.byteArray [1]] (QVariant.int 5) rfl (by decide)
  ⟨hpush.1 (by decide),
   rfl,
   hrep.2.1 (by decide),
   (hrep.2.2 (by decide)).1 1 (sampleTimer "127.0.0.1" DCMD.APPLY_CLIENT_SETTINGS true) rfl
     (by decide) (by
       intro j u hj hu
       have hj0 : j = 0 := by omega
       subst hj0
       simp only [waitingForTwo, List.getElem?_cons_zero, Option.some.injEq] at hu
       subst hu
       decide),
   fun out hout =>
     (hrep.2.2 (by decide)).2 0 (sampleTimer "127.0.0.1" DCMD.WRITE_PROFILE true) out rfl
       (by decide) hout⟩

/-! ## The pool functions (C16, C17) -/

/-- C16: `startRequestTimer(cmd)` changes nothing but the pool, and the pool it
leaves is: when the timer `tm` in slot `i` is the first that is not active, the
old pool with slot `i` holding `tm` re-tagged (current address, `cmd`) and
active, every other slot and the length as before; when every timer is active,
the old pool followed by one new active timer tagged (current address, `cmd`).
The pool never shrinks, and it grows, by one, exactly when all its timers are
active. -/
theorem startRequestTimer_reuses_or_appends (s : ServiceWorker) (cmd : DCMD) :
    (∀ (i : Nat) (tm : ClientServiceCmdTimer), s.reqTimerPool[i]? = some tm →
        tm.isActive = false →
        (∀ j, j < i → ∃ t, s.reqTimerPool[j]? = some t ∧ t.isActive = true) →
        (s.startRequestTimer cmd).reqTimerPool =
          s.reqTimerPool.set i { tm with addr := s.saddr, dcmd := cmd, active := true }) ∧
      ((∀ tm ∈ s.reqTimerPool, tm.isActive = true) →
        (s.startRequestTimer cmd).reqTimerPool =
          s.reqTimerPool ++
            [{ dcmd := cmd, addr := s.saddr, interval := 120000, singleShot := true,
               active := true }]) ∧
      s.reqTimerPool.length ≤ (s.startRequestTimer cmd).reqTimerPool.length ∧
      ((s.startRequestTimer cmd).reqTimerPool.length = s.reqTimerPool.length + 1 ↔
        ∀ tm ∈ s.reqTimerPool, tm.isActive = true) ∧
      ((s.startRequestTimer cmd).reqTimerPool.length = s.reqTimerPool.length ↔
        ∃ tm ∈ s.reqTimerPool, tm.isActive = false) ∧
      (s.startRequestTimer cmd).saddr = s.saddr ∧ (s.startRequestTimer cmd).sport = s.sport ∧
      (s.startRequestTimer cmd).sock = s.sock := by
  have hall : (s.reqTimerPool.all ClientServiceCmdTimer.isActive = true) ↔
      ∀ tm ∈ s.reqTimerPool, tm.isActive = true := by
    simp [List.all_eq_true]
  have hlen := startPool_length s.saddr cmd s.reqTimerPool
  rw [startRequestTimer_pool]
  refine ⟨?_, ?_, ?_, ?_, ?_, (startRequestTimer_frame s cmd).1,
    (startRequestTimer_frame s cmd).2.1, (startRequestTimer_frame s cmd).2.2⟩
  · intro i tm hi hin hbefore
    exact startPool_first_inactive s.saddr cmd s.reqTimerPool i tm hi hin hbefore
  · intro h
    exact startPool_all_active s.saddr cmd s.reqTimerPool h
  · rw [hlen]
    split <;> omega
  · rw [hlen, ← hall]
    split <;> simp_all
  · rw [hlen]
    by_cases ha : s.reqTimerPool.all ClientServiceCmdTimer.isActive = true
    · simp only [ha, if_true]
      constructor
      · intro h; omega
      · rintro ⟨tm, htm, hin⟩
        rw [hall.mp ha tm htm] at hin
        cases hin
    · simp only [ha, Bool.false_eq_true, if_false, true_iff]
      by_contra hne
      push_neg at hne
      apply ha
      rw [hall]
      intro tm htm
      have := hne tm htm
      simpa using this

/-- C16, witness: a request started on `stalePool`, whose first timer is not
active, and one started on the pool of `waitingWorker`, whose only timer is
active. -/
theorem startRequestTimer_reuses_or_appends_witness :
    ({ sampleWorker with reqTimerPool := stalePool }.startRequestTimer
          DCMD.GET_PROFILE_LIST).reqTimerPool =
        stalePool.set 0
          { sampleTimer "127.0.0.1" DCMD.WRITE_PROFILE false with
            addr := "127.0.0.1", dcmd := DCMD.GET_PROFILE_LIST, active := true } ∧
      (waitingWorker.startRequestTimer DCMD.GET_PROFILE_LIST).reqTimerPool =
        waitingWorker.reqTimerPool ++
          [{ dcmd := DCMD.GET_PROFILE_LIST, addr := "127.0.0.1", interval := 120000,
             singleShot := true, active := true }] :=
  ⟨(startRequestTimer_reuses_or_appends { sampleWorker with reqTimerPool := stalePool }
      DCMD.GET_PROFILE_LIST).1 0 (sampleTimer "127.0.0.1" DCMD.WRITE_PROFILE false) rfl rfl
      (fun j hj => absurd hj (Nat.not_lt_zero j)),
   (startRequestTimer_reuses_or_appends waitingWorker DCMD.GET_PROFILE_LIST).2.1
      (by decide)⟩

/-- C17, counterexample: the session that sends write-profile twice and then
receives one reply reaches the pool `stalePool`, in which a stopped timer tagged
(127.0.0.1, write-profile) stands before an active one with the same tag;
`stopTimerForCMD(write-profile)` leaves this pool as it is, so the first (and
only) active timer with that tag is still active. -/
theorem stale_timer_shields_active_timer :
    ∃ s sigs, ServiceWorker.run sampleExtern (ServiceWorker.initial 0 false) staleSession =
        some (s, sigs) ∧
      s.saddr = "127.0.0.1" ∧ s.reqTimerPool = stalePool ∧
      hasActive s.saddr DCMD.WRITE_PROFILE s.reqTimerPool = true ∧
      (s.stopTimerForCMD DCMD.WRITE_PROFILE).reqTimerPool = stalePool ∧
      (s.stopTimerForCMD DCMD.WRITE_PROFILE).reqTimerPool[1]? =
        some (sampleTimer "127.0.0.1" DCMD.WRITE_PROFILE true) ∧
      hasActive s.saddr DCMD.WRITE_PROFILE (s.stopTimerForCMD DCMD.WRITE_PROFILE).reqTimerPool
        = true := by
  refine ⟨_, _, rfl, by decide, by decide, by decide, by decide, by decide, by decide⟩

/-- C17, amended: after `stopTimerForCMD(cmd)` the first timer whose address is
the current address and whose command is `cmd`, active or not, is stopped and
every other timer is unchanged; if no timer matches both fields, and also if no
active timer matches both fields, the worker is unchanged. -/
theorem stopTimerForCMD_stops_first_match (s : ServiceWorker) (cmd : DCMD) :
    (∀ (i : Nat) (tm : ClientServiceCmdTimer), s.reqTimerPool[i]? = some tm →
        tm.tag = (s.saddr, cmd) →
        (∀ (j : Nat) (u : ClientServiceCmdTimer), j < i → s.reqTimerPool[j]? = some u →
          u.tag ≠ (s.saddr, cmd)) →
        s.stopTimerForCMD cmd = { s with reqTimerPool := s.reqTimerPool.set i tm.stop }) ∧
      ((∀ tm ∈ s.reqTimerPool, tm.tag ≠ (s.saddr, cmd)) → s.stopTimerForCMD cmd = s) ∧
      (hasActive s.saddr cmd s.reqTimerPool = false → s.stopTimerForCMD cmd = s) := by
  refine ⟨?_, ?_, ?_⟩
  · intro i tm hi hmatch hbefore
    simp only [stopTimerForCMD,
      stopFirstMatch_first s.saddr cmd s.reqTimerPool i tm hi hmatch hbefore]
  · intro h
    simp only [stopTimerForCMD, stopFirstMatch_no_match s.saddr cmd s.reqTimerPool h]
  · intro h
    simp only [stopTimerForCMD, stopFirstMatch_no_active s.saddr cmd s.reqTimerPool h]

/-- C17, witness of the amended claim: the one waiting timer is stopped. -/
theorem stopTimerForCMD_stops_first_match_witness :
    waitingWorker.stopTimerForCMD DCMD.GET_DAEMON_PACKET =
      { waitingWorker with
        reqTimerPool := waitingWorker.reqTimerPool.set 0
          (sampleTimer "127.0.0.1" DCMD.GET_DAEMON_PACKET true).stop } :=
  (stopTimerForCMD_stops_first_match waitingWorker DCMD.GET_DAEMON_PACKET).1 0
    (sampleTimer "127.0.0.1" DCMD.GET_DAEMON_PACKET true) rfl rfl
    (fun j _ hj _ => absurd hj (Nat.not_lt_zero j))

/-! ## The read loop (C18) -/

theorem framed_suffix (E : Extern) (msgs : List (List QVariant)) (buf tail : QByteArray)
    (h : Framed E buf msgs tail) : tail <:+ buf := by
  induction msgs generalizing buf with
  | nil =>
    obtain ⟨hbuf, _⟩ := h
    exact hbuf ▸ List.suffix_refl _
  | cons m ms ih =>
    obtain ⟨b, bs, k, hbuf, _, _, hrest⟩ := h
    rw [hbuf]
    exact ((ih _ hrest).trans (List.drop_suffix k bs)).trans (List.suffix_cons b bs)

/-- C18: when the read buffer holds the complete, non-empty messages `msgs` one
after the other, followed by `tail` on which the reader does not commit, one run
of `onReadyRead` is one call of `parseCMD` on each message of `msgs` in order
(the worker and the signals of `parseAll`), and it leaves exactly `tail`, the
end of the old buffer, in the read buffer. The run needs no more loop rounds
than the fuel the model gives it; it has no result only where a `parseCMD` call
reads a message out of range. -/
theorem onReadyRead_drains_complete_messages (E : Extern) (s : ServiceWorker)
    (msgs : List (List QVariant)) (tail : QByteArray)
    (h : Framed E s.sock.readBuffer msgs tail) :
    onReadyRead E s = (parseAll E s msgs).map (fun r => (r.1.withReadBuffer tail, r.2)) ∧
      tail <:+ s.sock.readBuffer ∧
      ((∀ m ∈ msgs, readsOutOfRange E m = false) →
        ∃ out, onReadyRead E s = some out ∧ out.1.sock.readBuffer = tail) := by
  have hrun := readLoop_framed E msgs tail s.sock.readBuffer.length s (Nat.le_refl _) h
  refine ⟨hrun, framed_suffix E msgs _ tail h, ?_⟩
  intro hsafe
  have hall : ∀ (ms : List (List QVariant)) (w : ServiceWorker),
      (∀ m ∈ ms, readsOutOfRange E m = false) → ∃ out, parseAll E w ms = some out := by
    intro ms
    induction ms with
    | nil => exact fun w _ => ⟨_, rfl⟩
    | cons m rest ih =>
      intro w hm
      obtain ⟨o1, ho1⟩ := parseCMD_total E w m (hm m (List.mem_cons_self _ _))
      obtain ⟨o2, ho2⟩ := ih o1.1 (fun x hx => hm x (List.mem_cons_of_mem _ hx))
      exact ⟨(o2.1, o1.2 ++ o2.2), by simp only [parseAll, ho1, ho2, Option.map_some']⟩
  obtain ⟨out, hout⟩ := hall msgs s hsafe
  refine ⟨(out.1.withReadBuffer tail, out.2), ?_, rfl⟩
  unfold onReadyRead
  rw [hrun, hout]
  rfl

/-- C18, witness: two complete replies and one byte of a third in the buffer. -/
theorem onReadyRead_drains_complete_messages_witness :
    onReadyRead sampleExtern (sampleWorker.withReadBuffer [7, 1, 8, 1, 9]) =
        (parseAll sampleExtern (sampleWorker.withReadBuffer [7, 1, 8, 1, 9])
          [[QVariant.int 7, QVariant.bool true], [QVariant.int 8, QVariant.bool true]]).map
          (fun r => (r.1.withReadBuffer [9], r.2)) ∧
      [9] <:+ (sampleWorker.withReadBuffer [7, 1, 8, 1, 9]).sock.readBuffer ∧
      ∃ out, onReadyRead sampleExtern (sampleWorker.withReadBuffer [7, 1, 8, 1, 9]) =
        some out ∧ out.1.sock.readBuffer = [9] :=
  ⟨(onReadyRead_drains_complete_messages sampleExtern
      (sampleWorker.withReadBuffer [7, 1, 8, 1, 9])
      [[QVariant.int 7, QVariant.bool true], [QVariant.int 8, QVariant.bool true]] [9]
      ⟨7, [1, 8, 1, 9], 1, rfl, rfl, by decide,
        ⟨8, [1, 9], 1, rfl, rfl, by decide, ⟨rfl, Or.inr rfl⟩⟩⟩).1,
   (onReadyRead_drains_complete_messages sampleExtern
      (sampleWorker.withReadBuffer [7, 1, 8, 1, 9])
      [[QVariant.int 7, QVariant.bool true], [QVariant.int 8, QVariant.bool true]] [9]
      ⟨7, [1, 8, 1, 9], 1, rfl, rfl, by decide,
        ⟨8, [1, 9], 1, rfl, rfl, by decide, ⟨rfl, Or.inr rfl⟩⟩⟩).2.1,
   (onReadyRead_drains_complete_messages sampleExtern
      (sampleWorker.withReadBuffer [7, 1, 8, 1, 9])
      [[QVariant.int 7, QVariant.bool true], [QVariant.int 8, QVariant.bool true]] [9]
      ⟨7, [1, 8, 1, 9], 1, rfl, rfl, by decide,
        ⟨8, [1, 9], 1, rfl, rfl, by decide, ⟨rfl, Or.inr rfl⟩⟩⟩).2.2 (by decide)⟩

/-! ## Unknown tags and index safety (C19, C20) -/

/-- C19: in a reachable worker the command of every timer is one of the 12
sendable commands, each of which `parseCMD` has a case for; hence for a message
whose tag `parseCMD` has no case for, the `stopTimerForCMD` of the default
branch leaves the worker as it was, and `parseCMD` returns it unchanged with one
log message ("unknown cmd" and the number of the tag) followed by
`commandFailed`. -/
theorem unknown_tag_fails_without_stopping (E : Extern) (s : ServiceWorker)
    (args : List QVariant) (a0 : QVariant) (hreach : ServiceWorker.Reachable E s)
    (h0 : args[0]? = some a0) (hu : (a0.toDCMD E).isNamed = false) :
    (∀ tm ∈ s.reqTimerPool, tm.dcmd ∈ sendable ∧ tm.dcmd.isNamed = true) ∧
      sendable.length = 12 ∧
      s.stopTimerForCMD (a0.toDCMD E) = s ∧
      parseCMD E s args =
        some (s, [Signal.logMessageSent
                    (s.setErrorMsg ("unknown cmd " ++ toString (E.dcmdInt (a0.toDCMD E)))),
                  Signal.commandFailed]) := by
  have hs := reachable_sendable E s hreach
  have hstop : s.stopTimerForCMD (a0.toDCMD E) = s := by
    have hno : ∀ tm ∈ s.reqTimerPool, tm.tag ≠ (s.saddr, a0.toDCMD E) := by
      intro tm htm htag
      have hd : tm.dcmd = a0.toDCMD E := congrArg Prod.snd htag
      have hn := sendable_isNamed tm.dcmd (hs tm htm)
      rw [hd, hu] at hn
      cases hn
    simp only [stopTimerForCMD, stopFirstMatch_no_match s.saddr _ s.reqTimerPool hno]
  refine ⟨fun tm htm => ⟨hs tm htm, sendable_isNamed _ (hs tm htm)⟩, rfl, hstop, ?_⟩
  cases args with
  | nil => simp at h0
  | cons b rest =>
    simp only [List.getElem?_cons_zero, Option.some.injEq] at h0
    subst h0
    cases htag : b.toDCMD E with
    | other code =>
      rw [htag] at hstop
      simp [parseCMD, hasValidMessageArgs, htag, dispatch, hstop, failWith]
    | _ => rw [htag] at hu; cases hu

/-- C19, witness: tag 99 arrives while a request is waiting. -/
theorem unknown_tag_fails_without_stopping_witness :
    (∀ tm ∈ waitingWorker.reqTimerPool, tm.dcmd ∈ sendable ∧ tm.dcmd.isNamed = true) ∧
      sendable.length = 12 ∧
      waitingWorker.stopTimerForCMD (QVariant.toDCMD sampleExtern (QVariant.int 99)) =
        waitingWorker ∧
      parseCMD sampleExtern waitingWorker [QVariant.int 99] =
        some (waitingWorker,
          [Signal.logMessageSent
             (waitingWorker.setErrorMsg
               ("unknown cmd " ++
                 toString (sampleExtern.dcmdInt (QVariant.toDCMD sampleExtern (QVariant.int 99))))),
           Signal.commandFailed]) :=
  unknown_tag_fails_without_stopping sampleExtern waitingWorker [QVariant.int 99]
    (QVariant.int 99)
    (run_reachable sampleExtern waitingSession (ServiceWorker.initial 0 false)
      (waitingWorker, [Signal.serviceConnected "127.0.0.1" 9999])
      (ServiceWorker.Reachable.init 0 false) (by decide))
    rfl (by decide)

/-- C20, the code at a failing input: the messages `[get-device-info]`,
`[get-daemon-packet]` and `[command-failed]`, each of length 1, are accepted by
`hasValidMessageArgs`, and `parseCMD` then reads `args[1]`, which is past the
end: index 1 is not smaller than the length 1. -/
theorem accepted_message_read_out_of_range :
    (hasValidMessageArgs sampleExtern [QVariant.int 2] = true ∧
        QVariant.toDCMD sampleExtern (QVariant.int 2) = DCMD.GET_DEVICE_INFO_PACKET ∧
        [QVariant.int 2][1]? = none ∧ ¬ (1 < [QVariant.int 2].length) ∧
        parseCMD sampleExtern sampleWorker [QVariant.int 2] = none) ∧
      (hasValidMessageArgs sampleExtern [QVariant.int 3] = true ∧
        QVariant.toDCMD sampleExtern (QVariant.int 3) = DCMD.GET_DAEMON_PACKET ∧
        [QVariant.int 3][1]? = none ∧ ¬ (1 < [QVariant.int 3].length) ∧
        parseCMD sampleExtern sampleWorker [QVariant.int 3] = none) ∧
      (hasValidMessageArgs sampleExtern [QVariant.int 0] = true ∧
        QVariant.toDCMD sampleExtern (QVariant.int 0) = DCMD.DAEMON_CMD_FAIL ∧
        [QVariant.int 0][1]? = none ∧ ¬ (1 < [QVariant.int 0].length) ∧
        parseCMD sampleExtern sampleWorker [QVariant.int 0] = none) := by
  refine ⟨⟨by decide, by decide, by decide, by decide, by decide⟩,
    ⟨by decide, by decide, by decide, by decide, by decide⟩,
    ⟨by decide, by decide, by decide, by decide, by decide⟩⟩

/-- Where the reads of `parseCMD` are in range: an accepted message whose tag is
none of generic command-failed, get-device-info and get-daemon-packet, and any
accepted message of length 2 or more with one of these tags, is handled without
a read past its end. -/
theorem accepted_message_in_range (E : Extern) (s : ServiceWorker) (args : List QVariant)
    (a0 : QVariant) (h0 : args[0]? = some a0)
    (h : a0.toDCMD E ∉ unguarded ∨ 2 ≤ args.length) :
    ∃ out, parseCMD E s args = some out := by
  apply parseCMD_total
  cases args with
  | nil => rfl
  | cons b rest =>
    simp only [List.getElem?_cons_zero, Option.some.injEq] at h0
    subst h0
    rcases h with h | h
    · simp [readsOutOfRange, h]
    · simp only [readsOutOfRange, Bool.and_eq_false_imp, Bool.and_eq_true, decide_eq_true_eq,
        decide_eq_false_iff_not]
      intro _
      omega

/-! ## Messages that fail validation (C2) -/

/-- C2, counterexample: for a write-profile reply of length 1, handed to
`parseCMD` directly or read from the socket by `onReadyRead`, the signals are a
log message followed by `serviceError`; the signal `commandFailed`, which the
encode failure in `sendCMD` and the timeout in `onCommandTimeout` emit, is not
among them. -/
theorem invalid_message_not_commandFailed :
    hasValidMessageArgs sampleExtern [QVariant.int 7] = false ∧
      parseCMD sampleExtern sampleWorker [QVariant.int 7] =
        some (sampleWorker,
          [Signal.logMessageSent "[127.0.0.1]: parseCMD: args is invalid", Signal.serviceError]) ∧
      onReadyRead shortReadExtern (sampleWorker.withReadBuffer [7]) =
        some (sampleWorker,
          [Signal.logMessageSent "[127.0.0.1]: parseCMD: args is invalid", Signal.serviceError]) ∧
      (¬ ∃ out : Outcome, parseCMD sampleExtern sampleWorker [QVariant.int 7] = some out ∧
        Signal.commandFailed ∈ out.2) ∧
      sendCMD failingExtern sampleWorker DCMD.WRITE_PROFILE [QVariant.int 7] =
        (sampleWorker,
          [Signal.logMessageSent "[127.0.0.1]: Failed to send cmd 7", Signal.commandFailed]) ∧
      (onCommandTimeout sampleExtern sampleWorker "127.0.0.1" DCMD.WRITE_PROFILE).2 =
        [Signal.logMessageSent "[127.0.0.1]: request timeout for command: 7",
         Signal.commandFailed] := by
  refine ⟨by decide, by decide, by decide, ?_, by decide, by decide⟩
  rintro ⟨out, hout, hmem⟩
  have h : parseCMD sampleExtern sampleWorker [QVariant.int 7] =
      some (sampleWorker,
        [Signal.logMessageSent "[127.0.0.1]: parseCMD: args is invalid",
         Signal.serviceError]) := by decide
  rw [h, Option.some.injEq] at hout
  subst hout
  revert hmem
  decide

/-- C2, amended: a message that is not empty fails argument validation only by
being shorter than the minimum of its tag; for every such message `parseCMD`
leaves the worker as it was and emits a log message followed by `serviceError`,
and nothing else; the facade passes both on and, on `serviceError`, reports
`isConnected() = false`; and when such a message is the one complete message in
the read buffer, this is what `onReadyRead` emits. An empty message does not
reach `parseCMD`: when the reader commits an empty message, `onReadyRead` itself
emits a log message followed by `commandFailed` and ends. -/
theorem invalid_message_raises_serviceError (E : Extern) (s : ServiceWorker)
    (a0 : QVariant) (rest : List QVariant) (c : ClientService)
    (h : hasValidMessageArgs E (a0 :: rest) = false) :
    ((a0.toDCMD E ∈ needsTwo ∧ (a0 :: rest).length < 2) ∨
        (a0.toDCMD E ∈ needsThree ∧ (a0 :: rest).length < 3)) ∧
      parseCMD E s (a0 :: rest) =
        some (s, [Signal.logMessageSent (s.setErrorMsg "parseCMD: args is invalid"),
                  Signal.serviceError]) ∧
      c.receiveAll [Signal.logMessageSent (s.setErrorMsg "parseCMD: args is invalid"),
          Signal.serviceError] =
        ({ c with connected := false },
          [ClientSignal.logMessageSent (s.setErrorMsg "parseCMD: args is invalid"),
           ClientSignal.serviceError]) ∧
      (∀ tail, Framed E s.sock.readBuffer [a0 :: rest] tail →
        onReadyRead E s =
          some (s.withReadBuffer tail,
            [Signal.logMessageSent (s.setErrorMsg "parseCMD: args is invalid"),
             Signal.serviceError])) ∧
      (∀ b bs k, s.sock.readBuffer = b :: bs → E.readArgs (b :: bs) = some ([], k) →
        onReadyRead E s =
          some (s.withReadBuffer (bs.drop k),
            [Signal.logMessageSent (s.setErrorMsg "Failed to get data from daemon"),
             Signal.commandFailed])) := by
  have hp := invalid_message_outcome E s (a0 :: rest) h
  have hshort : (a0.toDCMD E ∈ needsTwo ∧ (a0 :: rest).length < 2) ∨
      (a0.toDCMD E ∈ needsThree ∧ (a0 :: rest).length < 3) := by
    cases htag : a0.toDCMD E <;>
      rcases rest with _ | ⟨a1, _ | ⟨a2, rest⟩⟩ <;>
        simp [hasValidMessageArgs, htag] at h <;>
        simp [needsTwo, needsThree] <;>
        omega
  refine ⟨hshort, hp, rfl, ?_, ?_⟩
  · intro tail hf
    have hrun := readLoop_framed E [a0 :: rest] tail s.sock.readBuffer.length s
      (Nat.le_refl _) hf
    unfold onReadyRead
    rw [hrun]
    simp only [parseAll, hp, Option.map_some', List.append_nil]
  · intro b bs k hbuf hread
    unfold onReadyRead
    rw [hbuf]
    simp only [List.length_cons, readLoop, hbuf, hread, List.isEmpty_nil, if_true]
    rfl

/-- C2, witness of the amended claim: a write-profile reply of length 1, with
the facade connected, handed to `parseCMD` and read from the socket; and an
empty message read from the socket. -/
theorem invalid_message_raises_serviceError_witness :
    parseCMD shortReadExtern (sampleWorker.withReadBuffer [7]) [QVariant.int 7] =
        some (sampleWorker.withReadBuffer [7],
          [Signal.logMessageSent "[127.0.0.1]: parseCMD: args is invalid",
           Signal.serviceError]) ∧
      (ClientService.receiveAll { connected := true, sport := 9999, saddr := "127.0.0.1" }
          [Signal.logMessageSent "[127.0.0.1]: parseCMD: args is invalid",
           Signal.serviceError]).1.isConnected = false ∧
      onReadyRead shortReadExtern (sampleWorker.withReadBuffer [7]) =
        some (sampleWorker,
          [Signal.logMessageSent "[127.0.0.1]: parseCMD: args is invalid",
           Signal.serviceError]) ∧
      onReadyRead emptyReadExtern (sampleWorker.withReadBuffer [0]) =
        some (sampleWorker,
          [Signal.logMessageSent "[127.0.0.1]: Failed to get data from daemon",
           Signal.commandFailed]) :=
  have h := invalid_message_raises_serviceError shortReadExtern
    (sampleWorker.withReadBuffer [7]) (QVariant.int 7) []
    { connected := true, sport := 9999, saddr := "127.0.0.1" } (by decide)
  have h0 := invalid_message_raises_serviceError emptyReadExtern
    (sampleWorker.withReadBuffer [0]) (QVariant.int 7) []
    { connected := true, sport := 9999, saddr := "127.0.0.1" } (by decide)
  ⟨h.2.1.trans (by decide), (congrArg (fun r => r.1.isConnected) h.2.2.1).trans (by decide),
    (h.2.2.2.1 [] ⟨7, [], 0, rfl, rfl, by decide, ⟨rfl, Or.inl rfl⟩⟩).trans (by decide),
    (h0.2.2.2.2 0 [] 0 rfl rfl).trans (by decide)⟩

end PWTCS
